import Mathlib

/-!
Verification development for the OCI pricing MCP server.

The TypeScript sources are shallowly embedded: prices and usage quantities
become rationals (ℚ), timestamps become integers (milliseconds), JavaScript
objects become structures, optional fields become `Option`, and the mutable
module-level cache becomes explicit state passing.  JavaScript `||` defaults
on numeric fields are modelled by `jsOr` (0 is falsy), `Math.round` by
`jsRound` (half-up), and `x.toLowerCase()` / `x.includes(y)` by list-level
operations on `String.data` (`lowerStr`, `strIncludes`).  Degenerate IEEE-754
behaviours (NaN, Infinity) are outside the embedding; division is rational
division.
-/

namespace OciPricing

/-- JavaScript `Math.round`: round half-up to an integer. -/
def jsRound (x : ℚ) : ℤ := ⌊x + 1/2⌋

/-- `Math.round(x * 100) / 100`: round to 2 decimal places. -/
def round2 (x : ℚ) : ℚ := (jsRound (x * 100) : ℚ) / 100

/-- JavaScript `a || b` for an optional numeric field: `0` and absent are falsy. -/
def jsOr (a : Option ℚ) (b : ℚ) : ℚ :=
  match a with
  | some x => if x = 0 then b else x
  | none => b

/-- JavaScript truthiness of an optional numeric field. -/
def optTruthy (a : Option ℚ) : Bool :=
  match a with
  | some x => x ≠ 0
  | none => false

/-- JavaScript `a || b` for an optional string: `""` and absent are falsy. -/
def jsOrStr (a : Option String) (b : String) : String :=
  match a with
  | some s => if s = "" then b else s
  | none => b

/-- `s.toLowerCase()` (ASCII case mapping, applied character-wise). -/
def lowerStr (s : String) : String := String.mk (s.data.map Char.toLower)

/-- `s.includes(sub)`: substring containment. -/
def strIncludes (s sub : String) : Bool := decide (sub.data <:+: s.data)

/-- `s.startsWith(pre)`. -/
def jsStartsWith (s pre : String) : Bool := decide (pre.data <+: s.data)

/-- The hyphen-removing `s.replace` with a global regex: drop every hyphen. -/
def stripHyphens (s : String) : String := String.mk (s.data.filter (fun c => c ≠ '-'))

/-- JavaScript template interpolation of a possibly-absent string. -/
def jsTemplate (o : Option String) : String :=
  match o with
  | some s => s
  | none => "undefined"

/-! ## The in-memory TTL cache (src/data/cache.ts, class PricingCache) -/

/-- A cache entry: stored data plus creation and absolute expiration timestamps
(milliseconds). -/
structure CacheEntry (α : Type) where
  data : α
  timestamp : ℤ
  expiresAt : ℤ

/-- The key-indexed entry map backing the cache. -/
def CacheMap (α : Type) := String → Option (CacheEntry α)

def CacheMap.empty {α : Type} : CacheMap α := fun _ => none

/-- `PricingCache` state: the entry map plus the configured default TTL in
milliseconds (`defaultTTLMinutes * 60 * 1000`). -/
structure PricingCache (α : Type) where
  cache : CacheMap α
  defaultTTL : ℤ

/-- `new PricingCache(defaultTTLMinutes)` (fresh empty map). -/
def PricingCache.new (α : Type) (defaultTTLMinutes : ℤ) : PricingCache α :=
  { cache := CacheMap.empty, defaultTTL := defaultTTLMinutes * 60 * 1000 }

/-- `ttlMinutes ? ttlMinutes * 60 * 1000 : defaultTTL` — note that a `0`
override is falsy in JavaScript and falls back to the default. -/
def resolveTTL (defaultTTL : ℤ) (ttlMinutes : Option ℤ) : ℤ :=
  match ttlMinutes with
  | some t => if t = 0 then defaultTTL else t * 60 * 1000
  | none => defaultTTL

/-- `cache.delete(key)` (state part). -/
def cacheDelete {α : Type} (c : PricingCache α) (key : String) : PricingCache α :=
  { c with cache := fun k => if k = key then none else c.cache k }

/-- `PricingCache.get(key)` at current time `now`: returns the value if present
and not expired; an expired entry is deleted lazily and `null` is returned.
The returned state is the possibly-updated cache. -/
def cacheGet {α : Type} (c : PricingCache α) (key : String) (now : ℤ) :
    Option α × PricingCache α :=
  match c.cache key with
  | none => (none, c)
  | some entry =>
      if now > entry.expiresAt then (none, cacheDelete c key)
      else (some entry.data, c)

/-- `PricingCache.set(key, data, ttlMinutes?)` at current time `now`:
stores the value with `expiresAt = now + ttl`. -/
def cacheSet {α : Type} (c : PricingCache α) (key : String) (v : α) (now : ℤ)
    (ttlMinutes : Option ℤ) : PricingCache α :=
  let ttl := resolveTTL c.defaultTTL ttlMinutes
  { c with cache := fun k =>
      if k = key then some { data := v, timestamp := now, expiresAt := now + ttl }
      else c.cache k }

/-- `cache.clear()`. -/
def cacheClear {α : Type} (c : PricingCache α) : PricingCache α :=
  { c with cache := CacheMap.empty }

/-- `cleanExpired()` at time `now` (used by `getStats`). -/
def cleanExpired {α : Type} (c : PricingCache α) (now : ℤ) : PricingCache α :=
  { c with cache := fun k =>
      match c.cache k with
      | none => none
      | some e => if now > e.expiresAt then none else some e }

/-- One cache operation of the public interface, tagged with the wall-clock
time at which it runs where relevant. -/
inductive CacheOp (α : Type) where
  | set (key : String) (v : α) (now : ℤ) (ttlMinutes : Option ℤ)
  | get (key : String) (now : ℤ)
  | del (key : String)
  | clear
  | stats (now : ℤ)

/-- State transition of a single cache operation. -/
def applyOp {α : Type} (c : PricingCache α) : CacheOp α → PricingCache α
  | .set k v now ttl => cacheSet c k v now ttl
  | .get k now => (cacheGet c k now).2
  | .del k => cacheDelete c k
  | .clear => cacheClear c
  | .stats now => cleanExpired c now

/-- Run a sequence of cache operations. -/
def applyOps {α : Type} (c : PricingCache α) (ops : List (CacheOp α)) : PricingCache α :=
  ops.foldl applyOp c

/-- An entry currently in the cache was produced by some `set` in the executed
operations, and its expiration stamp is that write time plus the resolved TTL. -/
def SetOrigin {α : Type} (dflt : ℤ) (ops : List (CacheOp α)) (k : String)
    (e : CacheEntry α) : Prop :=
  ∃ t ttl, CacheOp.set k e.data t ttl ∈ ops ∧
    e.timestamp = t ∧ e.expiresAt = t + resolveTTL dflt ttl

lemma applyOp_defaultTTL {α : Type} (c : PricingCache α) (op : CacheOp α) :
    (applyOp c op).defaultTTL = c.defaultTTL := by
  cases op <;> simp [applyOp, cacheSet, cacheGet, cacheDelete, cacheClear, cleanExpired]
  case get k now =>
    cases h : c.cache k <;> simp [h]
    case some e => split <;> simp [cacheDelete]

lemma cacheGet_snd_cache_sub {α : Type} (c : PricingCache α) (key : String) (now : ℤ)
    (k : String) (e : CacheEntry α) (h : (cacheGet c key now).2.cache k = some e) :
    c.cache k = some e := by
  unfold cacheGet at h
  cases hc : c.cache key <;> simp [hc] at h
  · exact h
  · split at h
    · simp [cacheDelete] at h
      exact h.2
    · exact h

lemma applyOps_origin {α : Type} (dflt : ℤ) (ops : List (CacheOp α)) :
    ∀ (c : PricingCache α), c.defaultTTL = dflt →
      ∀ k e, (applyOps c ops).cache k = some e →
        c.cache k = some e ∨ SetOrigin dflt ops k e := by
  induction ops with
  | nil => intro c _ k e h; exact Or.inl h
  | cons op rest ih =>
      intro c hdflt k e h
      have hstep : (applyOp c op).defaultTTL = dflt := by
        rw [applyOp_defaultTTL]; exact hdflt
      have h2 := ih (applyOp c op) hstep k e h
      rcases h2 with h2 | h2
      · cases op with
        | set k' v t ttl =>
            by_cases hk : k = k'
            · subst hk
              simp [applyOp, cacheSet] at h2
              subst h2
              exact Or.inr ⟨t, ttl, List.mem_cons_self _ _, rfl, by rw [hdflt]⟩
            · simp [applyOp, cacheSet, hk] at h2
              exact Or.inl h2
        | get k' now => exact Or.inl (cacheGet_snd_cache_sub c k' now k e h2)
        | del k' =>
            simp [applyOp, cacheDelete] at h2
            exact Or.inl h2.2
        | clear => simp [applyOp, cacheClear, CacheMap.empty] at h2
        | stats now =>
            simp [applyOp, cleanExpired] at h2
            cases hc : c.cache k <;> simp [hc] at h2
            rcases h2 with ⟨_, h2⟩
            exact Or.inl (congrArg some h2)
      · rcases h2 with ⟨t, ttl, hm, he1, he2⟩
        exact Or.inr ⟨t, ttl, List.mem_cons_of_mem _ hm, he1, he2⟩

lemma cacheGet_some_fresh {α : Type} (c : PricingCache α) (key : String) (now : ℤ)
    (v : α) (h : (cacheGet c key now).1 = some v) :
    ∃ e, c.cache key = some e ∧ e.data = v ∧ now ≤ e.expiresAt := by
  unfold cacheGet at h
  cases hc : c.cache key <;> simp [hc] at h
  case some e =>
    split at h
    · exact absurd h (by simp)
    · refine ⟨e, rfl, ?_, by omega⟩
      simpa using h

/-! ## Catalog data model (src/types.ts, fields actually read by the tools) -/

/-- A compute catalog entry (`ComputeShapePricing`).  `shapeFamily` is probed
with optional chaining in the tools, hence `Option`. -/
structure ComputeItem where
  type : String
  description : String
  pricePerUnit : ℚ
  shapeFamily : Option String
  ocpuPrice : ℚ
  memoryPricePerGB : ℚ
  memoryPerOCPURatio : Option ℚ
deriving DecidableEq

/-- A storage catalog entry (`StoragePricing`). -/
structure StorageItem where
  type : String
  pricePerUnit : ℚ
deriving DecidableEq

/-- A database catalog entry (`DatabasePricing`).  The optional `byol` flag is
only ever compared with `=== true`, so it is a `Bool` with absent as `false`. -/
structure DatabaseItem where
  type : String
  databaseType : Option String
  description : String
  pricePerUnit : ℚ
  licenseIncluded : Bool
  byol : Bool
  ecpuPrice : Option ℚ
  storagePrice : Option ℚ
deriving DecidableEq

/-- A networking catalog entry (`NetworkingPricing`). -/
structure NetworkingItem where
  type : String
  pricePerUnit : ℚ
  includedDataGB : Option ℚ
deriving DecidableEq

/-- A raw product record (searchable by `searchProducts`). -/
structure Product where
  partNumber : String
  displayName : String
  serviceCategory : String
deriving DecidableEq

/-- The bundled pricing document (`OCIPricingData`), restricted to the parts
the verified operations consume.  `freeTier` records whether a `freeTier`
block is present (the calculator only tests its truthiness). -/
structure OCIPricingData where
  compute : List ComputeItem
  storage : List StorageItem
  database : List DatabaseItem
  networking : List NetworkingItem
  products : List Product
  freeTier : Bool
deriving DecidableEq

/-! ## Monthly cost calculator (src/tools/calculator.ts) -/

def HOURS_PER_MONTH : ℚ := 730

structure ComputeInput where
  shape : String
  ocpus : ℚ
  memoryGB : ℚ
  hoursPerMonth : Option ℚ
deriving DecidableEq

structure StorageInput where
  blockVolumeGB : Option ℚ
  objectStorageGB : Option ℚ
  archiveStorageGB : Option ℚ
  fileStorageGB : Option ℚ
deriving DecidableEq

structure DatabaseInput where
  type : String
  ecpus : Option ℚ
  storageGB : Option ℚ
  licenseIncluded : Option Bool
deriving DecidableEq

structure NetworkingInput where
  loadBalancerBandwidthMbps : Option ℚ
  outboundDataGB : Option ℚ
deriving DecidableEq

structure CostEstimateInput where
  compute : Option ComputeInput
  storage : Option StorageInput
  database : Option DatabaseInput
  networking : Option NetworkingInput
  region : Option String
deriving DecidableEq

structure BreakdownItem where
  category : String
  item : String
  quantity : ℚ
  unit : String
  unitPrice : ℚ
  monthlyTotal : ℚ
deriving DecidableEq

structure CostEstimateResult where
  breakdown : List BreakdownItem
  totalMonthly : ℚ
  currency : String
  region : String
  notes : List String
deriving DecidableEq

/-- Items, notes and cost sum contributed by one section of the calculator. -/
structure SectionOut where
  items : List BreakdownItem
  notes : List String
  cost : ℚ
deriving DecidableEq

def SectionOut.empty : SectionOut := { items := [], notes := [], cost := 0 }

/-- The shape lookup:
`computePricing.find(c => c.shapeFamily?.toLowerCase() === shape.toLowerCase())`. -/
def findShape (computePricing : List ComputeItem) (shape : String) : Option ComputeItem :=
  computePricing.find? (fun c =>
    match c.shapeFamily with
    | some f => lowerStr f == lowerStr shape
    | none => false)

def computeMissNote (shape : String) : String :=
  "Warning: Compute shape \"" ++ shape ++ "\" not found. Compute costs not calculated."

/-- The `if (input.compute)` block of `calculateMonthlyCost`. -/
def computeSection (computePricing : List ComputeItem) (ci : ComputeInput) : SectionOut :=
  match findShape computePricing ci.shape with
  | some shape =>
      let hoursPerMonth := jsOr ci.hoursPerMonth HOURS_PER_MONTH
      let ocpuCost := shape.ocpuPrice * ci.ocpus * hoursPerMonth
      let memoryCost := shape.memoryPricePerGB * ci.memoryGB * hoursPerMonth
      let ratio := ci.memoryGB / ci.ocpus
      let ratioNotes :=
        match shape.memoryPerOCPURatio with
        | some r =>
            if r ≠ 0 ∧ ratio > r then
              ["Warning: Memory-to-OCPU ratio (" ++ toString ratio ++
                ") exceeds maximum (" ++ toString r ++ "). Configuration may not be valid."]
            else []
        | none => []
      let hoursNotes :=
        if hoursPerMonth < HOURS_PER_MONTH then
          ["Compute calculated for " ++ toString hoursPerMonth ++ " hours/month (not 24/7)."]
        else []
      { items :=
          [ { category := "Compute", item := jsTemplate shape.shapeFamily ++ " - OCPUs",
              quantity := ci.ocpus, unit := "OCPU", unitPrice := shape.ocpuPrice,
              monthlyTotal := ocpuCost },
            { category := "Compute", item := jsTemplate shape.shapeFamily ++ " - Memory",
              quantity := ci.memoryGB, unit := "GB", unitPrice := shape.memoryPricePerGB,
              monthlyTotal := memoryCost } ],
        notes := ratioNotes ++ hoursNotes,
        cost := ocpuCost + memoryCost }
  | none => { items := [], notes := [computeMissNote ci.shape], cost := 0 }

/-- One storage block: `if (gb) { const p = pricing.find(s => s.type === key);
if (p) push(...) }`.  The four storage blocks are identical up to the type key
and item label. -/
def storagePiece (storagePricing : List StorageItem) (gb : Option ℚ)
    (typeKey itemLabel : String) : List BreakdownItem × ℚ :=
  match gb with
  | some g =>
      if g = 0 then ([], 0)
      else
        match storagePricing.find? (fun s => s.type == typeKey) with
        | some p =>
            let cost := p.pricePerUnit * g
            ([ { category := "Storage", item := itemLabel, quantity := g, unit := "GB",
                 unitPrice := p.pricePerUnit, monthlyTotal := cost } ], cost)
        | none => ([], 0)
  | none => ([], 0)

/-- The `if (input.storage)` block of `calculateMonthlyCost`. -/
def storageSection (storagePricing : List StorageItem) (si : StorageInput) : SectionOut :=
  let b := storagePiece storagePricing si.blockVolumeGB "block-storage-balanced"
    "Block Volume (Balanced)"
  let o := storagePiece storagePricing si.objectStorageGB "object-storage"
    "Object Storage (Standard)"
  let a := storagePiece storagePricing si.archiveStorageGB "object-storage-archive"
    "Object Storage (Archive)"
  let f := storagePiece storagePricing si.fileStorageGB "file-storage" "File Storage"
  { items := b.1 ++ o.1 ++ a.1 ++ f.1, notes := [], cost := b.2 + o.2 + a.2 + f.2 }

def dbMissNote (t : String) : String :=
  "Warning: Database type \"" ++ t ++ "\" not found or ECPUs not specified."

/-- The database lookup inside `calculateMonthlyCost`:
`dbPricing.find(d => d.type.toLowerCase().includes(type.toLowerCase()) ||
d.databaseType === type)`. -/
def dbFind (dbPricing : List DatabaseItem) (dtype : String) : Option DatabaseItem :=
  dbPricing.find? (fun d =>
    strIncludes (lowerStr d.type) (lowerStr dtype) || d.databaseType == some dtype)

/-- The `if (input.database)` block of `calculateMonthlyCost`.  The guard is
`if (dbPrice && input.database.ecpus)`; the storage sub-block is guarded by
`if (input.database.storageGB)`. -/
def databaseSection (dbPricing : List DatabaseItem) (di : DatabaseInput) : SectionOut :=
  match dbFind dbPricing di.type, di.ecpus with
  | some dbPrice, some ecpus =>
      if ecpus = 0 then { items := [], notes := [dbMissNote di.type], cost := 0 }
      else
        let ecpuPrice := jsOr dbPrice.ecpuPrice dbPrice.pricePerUnit
        let ecpuCost := ecpuPrice * ecpus * HOURS_PER_MONTH
        let ecpuItem : BreakdownItem :=
          { category := "Database", item := dbPrice.description ++ " - Compute",
            quantity := ecpus, unit := "ECPU", unitPrice := ecpuPrice,
            monthlyTotal := ecpuCost }
        let storagePart : List BreakdownItem × ℚ :=
          match di.storageGB with
          | some g =>
              if g = 0 then ([], 0)
              else
                let storagePrice := jsOr dbPrice.storagePrice (51/2000)
                let storageCost := storagePrice * g
                ([ { category := "Database", item := dbPrice.description ++ " - Storage",
                     quantity := g, unit := "GB", unitPrice := storagePrice,
                     monthlyTotal := storageCost } ], storageCost)
          | none => ([], 0)
        let byolNotes :=
          if di.licenseIncluded == some false then
            ["Database costs calculated with BYOL (Bring Your Own License)."]
          else []
        { items := ecpuItem :: storagePart.1, notes := byolNotes,
          cost := ecpuCost + storagePart.2 }
  | _, _ => { items := [], notes := [dbMissNote di.type], cost := 0 }

/-- The load-balancer block (`if (input.networking.loadBalancerBandwidthMbps)`)
of `calculateMonthlyCost`. -/
def lbBlock (netPricing : List NetworkingItem) (mbps? : Option ℚ) : SectionOut :=
  match mbps? with
  | some mbps =>
      if mbps = 0 then SectionOut.empty
      else
        match netPricing.find? (fun n => n.type == "flexible-load-balancer"),
            netPricing.find? (fun n => n.type == "flexible-load-balancer-bandwidth") with
        | some lbPrice, some bwPrice =>
            let lbCost := lbPrice.pricePerUnit * HOURS_PER_MONTH
            let bwCost := bwPrice.pricePerUnit * mbps * HOURS_PER_MONTH
            { items :=
                [ { category := "Networking", item := "Flexible Load Balancer",
                    quantity := 1, unit := "instance", unitPrice := lbPrice.pricePerUnit,
                    monthlyTotal := lbCost },
                  { category := "Networking", item := "Load Balancer Bandwidth",
                    quantity := mbps, unit := "Mbps", unitPrice := bwPrice.pricePerUnit,
                    monthlyTotal := bwCost } ],
              notes := ["First LB and 10 Mbps free for paid accounts (not reflected in estimate)."],
              cost := lbCost + bwCost }
        | _, _ => SectionOut.empty
  | none => SectionOut.empty

/-- The outbound-data-transfer block (`if (input.networking.outboundDataGB)`)
of `calculateMonthlyCost`. -/
def egressBlock (netPricing : List NetworkingItem) (gb? : Option ℚ) : SectionOut :=
  match gb? with
  | some gb =>
      if gb = 0 then SectionOut.empty
      else
        match netPricing.find? (fun n => n.type == "data-egress") with
        | some egressPrice =>
            let freeGB := jsOr egressPrice.includedDataGB 10240
            let billableGB := max 0 (gb - freeGB)
            let egressItems :=
              if billableGB > 0 then
                [ { category := "Networking", item := "Outbound Data Transfer",
                    quantity := billableGB, unit := "GB",
                    unitPrice := egressPrice.pricePerUnit,
                    monthlyTotal := egressPrice.pricePerUnit * billableGB } ]
              else []
            let egressCost := if billableGB > 0 then egressPrice.pricePerUnit * billableGB else 0
            { items := egressItems,
              notes := ["First " ++ toString (freeGB / 1024) ++
                " TB of outbound data is free per month. You specified " ++
                toString gb ++ " GB."],
              cost := egressCost }
        | none => SectionOut.empty
  | none => SectionOut.empty

/-- The `if (input.networking)` block of `calculateMonthlyCost`. -/
def networkingSection (netPricing : List NetworkingItem) (ni : NetworkingInput) :
    SectionOut :=
  let lbPart := lbBlock netPricing ni.loadBalancerBandwidthMbps
  let egressPart := egressBlock netPricing ni.outboundDataGB
  { items := lbPart.items ++ egressPart.items, notes := lbPart.notes ++ egressPart.notes,
    cost := lbPart.cost + egressPart.cost }

def freeTierNote : String :=
  "OCI Always Free tier may reduce costs further (4 A1 OCPUs + 24GB RAM, 200GB block storage, etc.)."

/-- The effective hours factor of a cost-estimate input (the compute override
when truthy, else 730). -/
def hoursFactor (input : CostEstimateInput) : ℚ :=
  jsOr (match input.compute with | some ci => ci.hoursPerMonth | none => none)
    HOURS_PER_MONTH

/-- `calculateMonthlyCost(input)`, with the catalog passed explicitly (the
source reads it through the cached data loader). -/
def calculateMonthlyCost (pricing : OCIPricingData) (input : CostEstimateInput) :
    CostEstimateResult :=
  let comp := match input.compute with
    | some ci => computeSection pricing.compute ci
    | none => SectionOut.empty
  let stor := match input.storage with
    | some si => storageSection pricing.storage si
    | none => SectionOut.empty
  let db := match input.database with
    | some di => databaseSection pricing.database di
    | none => SectionOut.empty
  let net := match input.networking with
    | some ni => networkingSection pricing.networking ni
    | none => SectionOut.empty
  let freeNotes := if pricing.freeTier then [freeTierNote] else []
  { breakdown := comp.items ++ stor.items ++ db.items ++ net.items,
    totalMonthly := round2 (comp.cost + stor.cost + db.cost + net.cost),
    currency := "USD",
    region := jsOrStr input.region "us-ashburn-1",
    notes := comp.notes ++ stor.notes ++ db.notes ++ net.notes ++ freeNotes }

/-! ## Database cost calculator (src/tools/database.ts, calculateDatabaseCost) -/

structure DbCostParams where
  type : String
  computeUnits : ℚ
  storageGB : ℚ
  licenseType : Option String
  hoursPerMonth : Option ℚ
deriving DecidableEq

/-- Breakdown rows of the database calculator (no `category` field there). -/
structure DbBreakdownItem where
  item : String
  quantity : ℚ
  unit : String
  unitPrice : ℚ
  monthlyTotal : ℚ
deriving DecidableEq

structure DbSavings where
  byolSavings : ℚ
  percentSaved : ℤ
deriving DecidableEq

structure DbCostResult where
  breakdown : List DbBreakdownItem
  totalMonthly : ℚ
  savings : Option DbSavings
  notes : List String
deriving DecidableEq

/-- The primary lookup: `databases.find(d => d.databaseType === params.type ||
d.type?.toLowerCase().includes(params.type.toLowerCase().replace(hyphens, '')))`. -/
def dbCostFind (databases : List DatabaseItem) (t : String) : Option DatabaseItem :=
  databases.find? (fun d =>
    d.databaseType == some t ||
      strIncludes (lowerStr d.type) (stripHyphens (lowerStr t)))

/-- The BYOL-variant lookup: `databases.find(d => (d.databaseType === params.type ||
d.type?.toLowerCase().includes(params.type.toLowerCase())) && d.byol === true)`. -/
def dbByolFind (databases : List DatabaseItem) (t : String) : Option DatabaseItem :=
  databases.find? (fun d =>
    (d.databaseType == some t || strIncludes (lowerStr d.type) (lowerStr t)) && d.byol)

/-- The savings lookup: `databases.find(d => d.databaseType === params.type &&
d.byol === true)`. -/
def dbSavingsFind (databases : List DatabaseItem) (t : String) : Option DatabaseItem :=
  databases.find? (fun d => d.databaseType == some t && d.byol)

def dbByolPriceNote : String :=
  "Price reflects BYOL (Bring Your Own License) - infrastructure only"

def dbAutoScaleNote : String :=
  "Auto-scaling can increase compute beyond configured ECPUs - set limits to control costs"

/-- `calculateDatabaseCost(params)` with the database catalog passed explicitly. -/
def calculateDatabaseCost (databases : List DatabaseItem) (params : DbCostParams) :
    DbCostResult :=
  let hoursPerMonth := jsOr params.hoursPerMonth 730
  let db0 := dbCostFind databases params.type
  let db :=
    if params.licenseType == some "byol" then
      match dbByolFind databases params.type with
      | some byolDb => some byolDb
      | none => db0
    else db0
  match db with
  | none =>
      { breakdown := [], totalMonthly := 0, savings := none,
        notes := ["Database type \"" ++ params.type ++ "\" not found"] }
  | some db =>
      let computePrice := jsOr db.ecpuPrice db.pricePerUnit
      let computeUnit := if optTruthy db.ecpuPrice then "ECPU" else "OCPU"
      let computeCost := computePrice * params.computeUnits * hoursPerMonth
      let computeItem : DbBreakdownItem :=
        { item := db.description ++ " - Compute", quantity := params.computeUnits,
          unit := computeUnit, unitPrice := computePrice,
          monthlyTotal := round2 computeCost }
      let storagePrice := jsOr db.storagePrice (51/2000)
      let storageCost := storagePrice * params.storageGB
      let storageItem : DbBreakdownItem :=
        { item := db.description ++ " - Storage", quantity := params.storageGB,
          unit := "GB", unitPrice := storagePrice, monthlyTotal := round2 storageCost }
      let totalMonthly := round2 (computeCost + storageCost)
      let savingsPart : Option DbSavings × List String :=
        if jsStartsWith params.type "autonomous" && !(params.licenseType == some "byol") then
          match dbSavingsFind databases params.type with
          | some byolDb =>
              let byolEcpuPrice := jsOr byolDb.ecpuPrice byolDb.pricePerUnit
              let byolComputeCost := byolEcpuPrice * params.computeUnits * hoursPerMonth
              let byolTotal := byolComputeCost + storageCost
              let savedAmount := totalMonthly - byolTotal
              let percentSaved := jsRound (savedAmount / totalMonthly * 100)
              let s : DbSavings := { byolSavings := round2 savedAmount,
                                     percentSaved := percentSaved }
              (some s,
                ["BYOL option available: Save $" ++ toString s.byolSavings ++
                  "/month (" ++ toString percentSaved ++ "%) with existing Oracle licenses"])
          | none => (none, [])
        else (none, [])
      let byolNotes := if db.byol then [dbByolPriceNote] else []
      let hoursNotes :=
        if hoursPerMonth < 730 then
          ["Calculated for " ++ toString hoursPerMonth ++ " hours/month (not 24/7 usage)"]
        else []
      let autoNotes :=
        if params.type == "autonomous-transaction-processing" ||
            params.type == "autonomous-data-warehouse" then [dbAutoScaleNote]
        else []
      { breakdown := [computeItem, storageItem], totalMonthly := totalMonthly,
        savings := savingsPart.1,
        notes := savingsPart.2 ++ byolNotes ++ hoursNotes ++ autoNotes }

/-! ## Networking cost calculator (src/tools/networking.ts, calculateNetworkingCost) -/

structure NetCostParams where
  flexibleLoadBalancers : Option ℚ
  loadBalancerBandwidthMbps : Option ℚ
  networkLoadBalancers : Option ℚ
  outboundDataGB : Option ℚ
  fastConnectGbps : Option ℚ
  vpnConnections : Option ℚ
  natGateways : Option ℚ
deriving DecidableEq

/-- Breakdown rows of the networking calculator (with an optional per-row note). -/
structure NetBreakdownItem where
  item : String
  quantity : ℚ
  unit : String
  unitPrice : ℚ
  monthlyTotal : ℚ
  note : Option String
deriving DecidableEq

structure NetCostResult where
  breakdown : List NetBreakdownItem
  totalMonthly : ℚ
  freeCredits : ℚ
  netCost : ℚ
  notes : List String
deriving DecidableEq

/-- Items, notes and free-credit amount contributed by one block of
`calculateNetworkingCost`. -/
structure NetSectionOut where
  items : List NetBreakdownItem
  notes : List String
  credits : ℚ

def NetSectionOut.empty : NetSectionOut := { items := [], notes := [], credits := 0 }

/-- `calculateNetworkingCost(params)` with the networking catalog passed
explicitly.  Guards of the form `params.x && params.x > 0` reduce to `x > 0`
for present fields. -/
def calculateNetworkingCost (networking : List NetworkingItem) (params : NetCostParams) :
    NetCostResult :=
  let lbPart : NetSectionOut :=
    match params.flexibleLoadBalancers with
    | some n =>
        if n > 0 then
          match networking.find? (fun x => x.type == "flexible-load-balancer") with
          | some lbPrice =>
              let lbCost := lbPrice.pricePerUnit * n * 730
              let credits := if n ≥ 1 then lbPrice.pricePerUnit * 730 else 0
              let creditNotes :=
                if n ≥ 1 then ["First Flexible Load Balancer is free for paid accounts"]
                else []
              { items :=
                  [ { item := "Flexible Load Balancer (base)", quantity := n,
                      unit := "instance", unitPrice := lbPrice.pricePerUnit,
                      monthlyTotal := round2 lbCost,
                      note := if n == 1 then some "First one free" else none } ],
                notes := creditNotes, credits := credits }
          | none => NetSectionOut.empty
        else NetSectionOut.empty
    | none => NetSectionOut.empty
  let bwPart : NetSectionOut :=
    match params.loadBalancerBandwidthMbps with
    | some b =>
        if b > 0 then
          match networking.find? (fun x => x.type == "flexible-load-balancer-bandwidth") with
          | some bwPrice =>
              let bwCost := bwPrice.pricePerUnit * b * 730
              let credits :=
                if b ≤ 10 then bwCost else bwPrice.pricePerUnit * 10 * 730
              let creditNotes :=
                if b ≤ 10 then ["First 10 Mbps bandwidth is free for paid accounts"]
                else []
              { items :=
                  [ { item := "Load Balancer Bandwidth", quantity := b, unit := "Mbps",
                      unitPrice := bwPrice.pricePerUnit, monthlyTotal := round2 bwCost,
                      note := some "First 10 Mbps free" } ],
                notes := creditNotes, credits := credits }
          | none => NetSectionOut.empty
        else NetSectionOut.empty
    | none => NetSectionOut.empty
  let nlbPart : NetSectionOut :=
    match params.networkLoadBalancers with
    | some n =>
        if n > 0 then
          { items :=
              [ { item := "Network Load Balancer (L4)", quantity := n, unit := "instance",
                  unitPrice := 0, monthlyTotal := 0, note := some "FREE - no charge" } ],
            notes := ["Network Load Balancers are completely free"], credits := 0 }
        else NetSectionOut.empty
    | none => NetSectionOut.empty
  let egressPart : NetSectionOut :=
    match params.outboundDataGB with
    | some g =>
        if g > 0 then
          match networking.find? (fun x => x.type == "data-egress") with
          | some egressPrice =>
              let freeGB : ℚ := 10240
              let billableGB := max 0 (g - freeGB)
              let egressCost := egressPrice.pricePerUnit * billableGB
              let credits :=
                if g ≤ freeGB then egressPrice.pricePerUnit * g
                else egressPrice.pricePerUnit * freeGB
              let creditNotes :=
                if g ≤ freeGB then
                  ["All " ++ toString g ++ " GB outbound transfer covered by free tier"]
                else
                  ["First 10 TB (" ++ toString freeGB ++ " GB) outbound is free. Charging for " ++
                    toString billableGB ++ " GB."]
              { items :=
                  [ { item := "Outbound Data Transfer", quantity := g, unit := "GB",
                      unitPrice := egressPrice.pricePerUnit, monthlyTotal := round2 egressCost,
                      note := some ("First 10 TB free (" ++ toString billableGB ++
                        " GB billable)") } ],
                notes := creditNotes, credits := credits }
          | none => NetSectionOut.empty
        else NetSectionOut.empty
    | none => NetSectionOut.empty
  let fcPart : NetSectionOut :=
    match params.fastConnectGbps with
    | some g =>
        if g = 0 then NetSectionOut.empty
        else
          match networking.find? (fun x => x.type == "fastconnect-" ++ toString g ++ "g") with
          | some fcPrice =>
              { items :=
                  [ { item := "FastConnect " ++ toString g ++ " Gbps", quantity := 1,
                      unit := "port", unitPrice := fcPrice.pricePerUnit,
                      monthlyTotal := round2 (fcPrice.pricePerUnit * 730),
                      note := some "Port fee only; partner fees separate" } ],
                notes := [], credits := 0 }
          | none => NetSectionOut.empty
    | none => NetSectionOut.empty
  let vpnPart : NetSectionOut :=
    match params.vpnConnections with
    | some n =>
        if n > 0 then
          match networking.find? (fun x => x.type == "site-to-site-vpn") with
          | some vpnPrice =>
              { items :=
                  [ { item := "Site-to-Site VPN", quantity := n, unit := "connection",
                      unitPrice := vpnPrice.pricePerUnit,
                      monthlyTotal := round2 (vpnPrice.pricePerUnit * n * 730),
                      note := none } ],
                notes := [], credits := 0 }
          | none => NetSectionOut.empty
        else NetSectionOut.empty
    | none => NetSectionOut.empty
  let natPart : NetSectionOut :=
    match params.natGateways with
    | some n =>
        if n > 0 then
          match networking.find? (fun x => x.type == "nat-gateway") with
          | some natPrice =>
              { items :=
                  [ { item := "NAT Gateway", quantity := n, unit := "gateway",
                      unitPrice := natPrice.pricePerUnit,
                      monthlyTotal := round2 (natPrice.pricePerUnit * n * 730),
                      note := none } ],
                notes := [], credits := 0 }
          | none => NetSectionOut.empty
        else NetSectionOut.empty
    | none => NetSectionOut.empty
  let breakdown := lbPart.items ++ bwPart.items ++ nlbPart.items ++ egressPart.items ++
    fcPart.items ++ vpnPart.items ++ natPart.items
  let freeCredits := lbPart.credits + bwPart.credits + nlbPart.credits + egressPart.credits +
    fcPart.credits + vpnPart.credits + natPart.credits
  let totalMonthly := breakdown.foldl (fun s i => s + i.monthlyTotal) 0
  let netCost := max 0 (round2 (totalMonthly - freeCredits))
  { breakdown := breakdown,
    totalMonthly := round2 totalMonthly,
    freeCredits := round2 freeCredits,
    netCost := netCost,
    notes := lbPart.notes ++ bwPart.notes ++ nlbPart.notes ++ egressPart.notes ++
      fcPart.notes ++ vpnPart.notes ++ natPart.notes }

/-! ## Data loader (src/data/fetcher.ts) -/

/-- `searchProducts` filter options. -/
structure SearchOptions where
  category : Option String
  search : Option String
deriving DecidableEq

/-- `searchProducts(options)` applied to the loaded product list.  The guards
are `if (options?.category)` / `if (options?.search)`, so empty strings are
falsy and skip the filter. -/
def searchProducts (products : List Product) (options : SearchOptions) : List Product :=
  let afterCategory :=
    match options.category with
    | some cat =>
        if cat = "" then products
        else products.filter (fun p =>
          strIncludes (lowerStr p.serviceCategory) (lowerStr cat))
    | none => products
  match options.search with
  | some s =>
      if s = "" then afterCategory
      else afterCategory.filter (fun p =>
        strIncludes (lowerStr p.displayName) (lowerStr s) ||
        strIncludes (lowerStr p.partNumber) (lowerStr s) ||
        strIncludes (lowerStr p.serviceCategory) (lowerStr s))
  | none => afterCategory

/-! Real-time pricing feed types. -/

structure RTPriceEntry where
  model : String
  value : ℚ
deriving DecidableEq

structure RTCurrencyLoc where
  currencyCode : String
  prices : List RTPriceEntry
deriving DecidableEq

structure ApiItem where
  partNumber : String
  displayName : String
  metricName : String
  serviceCategory : String
  currencyCodeLocalizations : List RTCurrencyLoc
deriving DecidableEq

structure ApiData where
  lastUpdated : String
  items : List ApiItem
deriving DecidableEq

structure RealTimePriceItem where
  partNumber : String
  displayName : String
  metricName : String
  serviceCategory : String
  unitPrice : ℚ
  currency : String
deriving DecidableEq

structure RealTimePricingResponse where
  lastUpdated : String
  totalProducts : ℕ
  items : List RealTimePriceItem
deriving DecidableEq

/-- Values held by the singleton `pricingCache`: the bundled catalog under
`CACHE_KEYS.PRICING_DATA`, and a transformed feed response under each
`realtime_<currency>` key. -/
inductive CacheVal where
  | pricingData (d : OCIPricingData)
  | realtime (r : RealTimePricingResponse)
deriving DecidableEq

def KEY_PRICING_DATA : String := "oci_pricing_data"

/-- Milliseconds of the 24-hour TTL (`60 * 24` minutes) used for the bundled
catalog. -/
def DAY_MS : ℤ := 24 * 60 * 60 * 1000

/-- Process-wide data loader state: the singleton cache plus a count of
bundled-file disk reads (each `loadBundledPricingData()` call). -/
structure FetcherState where
  cache : PricingCache CacheVal
  loads : ℕ

/-- `getPricingData()` at time `now`, with the on-disk bundle `bundle` passed
explicitly.  On a cache hit the cached catalog is returned; on a miss the
bundle is read from disk and cached for `60 * 24` minutes.  A non-catalog
value under the catalog key never occurs (only this function writes that key),
so that branch also falls through to a load. -/
def getPricingData (bundle : OCIPricingData) (s : FetcherState) (now : ℤ) :
    OCIPricingData × FetcherState :=
  match cacheGet s.cache KEY_PRICING_DATA now with
  | (some (.pricingData d), c') => (d, { cache := c', loads := s.loads })
  | (_, c') =>
      (bundle,
        { cache := cacheSet c' KEY_PRICING_DATA (.pricingData bundle) now (some (60 * 24)),
          loads := s.loads + 1 })

/-- A sequence of `getPricingData()` calls at the given times, collecting the
returned catalogs. -/
def runGetPricingData (bundle : OCIPricingData) (s : FetcherState) :
    List ℤ → List OCIPricingData × FetcherState
  | [] => ([], s)
  | t :: ts =>
      let r := getPricingData bundle s t
      let rest := runGetPricingData bundle r.2 ts
      (r.1 :: rest.1, rest.2)

/-- The per-item currency extraction of `fetchRealTimePricing`: the first
localization with the requested currency code, and within it the first
`PAY_AS_YOU_GO` price; otherwise 0. -/
def extractUnitPrice (currency : String) (locs : List RTCurrencyLoc) : ℚ :=
  match locs.find? (fun c => c.currencyCode == currency) with
  | some loc =>
      match loc.prices.find? (fun p => p.model == "PAY_AS_YOU_GO") with
      | some p => p.value
      | none => 0
  | none => 0

/-- The item transformation of `fetchRealTimePricing`. -/
def transformApiData (currency : String) (data : ApiData) : RealTimePricingResponse :=
  let items := data.items.map (fun item =>
    { partNumber := item.partNumber, displayName := item.displayName,
      metricName := item.metricName, serviceCategory := item.serviceCategory,
      unitPrice := extractUnitPrice currency item.currencyCodeLocalizations,
      currency := currency : RealTimePriceItem })
  { lastUpdated := data.lastUpdated, totalProducts := items.length, items := items }

structure RTOptions where
  currency : Option String
  category : Option String
  search : Option String
deriving DecidableEq

/-- `filterRealTimeData(data, options)`. -/
def filterRealTimeData (data : RealTimePricingResponse) (options : RTOptions) :
    RealTimePricingResponse :=
  let afterCategory :=
    match options.category with
    | some cat =>
        if cat = "" then data.items
        else data.items.filter (fun item =>
          strIncludes (lowerStr item.serviceCategory) (lowerStr cat))
    | none => data.items
  let items :=
    match options.search with
    | some s =>
        if s = "" then afterCategory
        else afterCategory.filter (fun item =>
          strIncludes (lowerStr item.displayName) (lowerStr s) ||
          strIncludes (lowerStr item.partNumber) (lowerStr s) ||
          strIncludes (lowerStr item.serviceCategory) (lowerStr s))
    | none => afterCategory
  { data with items := items, totalProducts := items.length }

/-- One possible outcome of the single `fetch` performed by
`fetchRealTimePricing`: a network-level failure, or an HTTP response with its
`ok` flag, status code and parsed body. -/
inductive FetchOutcome where
  | networkError (msg : String)
  | response (ok : Bool) (status : ℕ) (body : ApiData)
deriving DecidableEq

/-- `fetchRealTimePricing(options)` at time `now`.  The network is modelled as
an oracle list of outcomes from which each performed `fetch` consumes the
head; the returned list is the unconsumed remainder, so the number of consumed
outcomes counts the fetches performed.  A thrown error becomes `Except.error`
with the thrown message.  A `pricingData` value under a `realtime_` key never
occurs (those keys are only written by this function), so that branch also
falls through to a fetch. -/
def fetchRealTimePricing (c : PricingCache CacheVal) (now : ℤ) (options : RTOptions)
    (outcomes : List FetchOutcome) :
    Except String RealTimePricingResponse × PricingCache CacheVal × List FetchOutcome :=
  let currency := jsOrStr options.currency "USD"
  let cacheKey := "realtime_" ++ currency
  match cacheGet c cacheKey now with
  | (some (.realtime cached), c') => (.ok (filterRealTimeData cached options), c', outcomes)
  | (_, c') =>
      match outcomes with
      | [] => (.error "Failed to fetch real-time pricing: Unknown error", c', [])
      | .networkError msg :: rest =>
          (.error ("Failed to fetch real-time pricing: " ++ msg), c', rest)
      | .response ok status body :: rest =>
          if !ok then
            (.error ("Failed to fetch real-time pricing: API request failed: " ++
              toString status), c', rest)
          else
            let result := transformApiData currency body
            (.ok (filterRealTimeData result options),
              cacheSet c' cacheKey (.realtime result) now (some 5), rest)

/-! ## Multicloud comparison (src/tools/multicloud.ts, compareMulticloudVsOCI) -/

/-- A multicloud database price record (`MulticloudDatabasePricing`). -/
structure MCPricing where
  databaseType : String
  provider : String
  available : Bool
  pricingModel : String
  ecpuPrice : Option ℚ
  ocpuPrice : Option ℚ
  storagePrice : Option ℚ
  licenseIncludedPrice : Option ℚ
  byolPrice : Option ℚ
  licenseIncluded : Bool
  byolAvailable : Bool
  billingNote : String
  marketplaceUrl : Option String
deriving DecidableEq

/-- A row of the comparison table built by `compareMulticloudVsOCI`. -/
structure ComparisonRow where
  provider : String
  brand : String
  available : Bool
  pricingModel : String
  computePrice : ℚ
  storagePrice : ℚ
  monthlyEstimate : ℚ
  vsOCI : String
  billingNote : String
  marketplaceUrl : Option String
deriving DecidableEq

structure MCCompareResult where
  databaseType : String
  comparison : List ComparisonRow
  ociMonthly : ℚ
deriving DecidableEq

/-- A JavaScript `||` chain over optional numeric operands with a final
default. -/
def jsOrChain : List (Option ℚ) → ℚ → ℚ
  | [], d => d
  | o :: rest, d =>
      match o with
      | some x => if x = 0 then jsOrChain rest d else x
      | none => jsOrChain rest d

/-- The `switch (databaseType)` mapping a multicloud database type to the
bundled OCI naming. -/
def ociDbTypeFor : String → String
  | "autonomous-serverless" => "autonomous-db-atp"
  | "autonomous-dedicated" => "autonomous-db-atp"
  | "exadata" => "exadata-cloud"
  | "exascale" => "exadata-cloud"
  | "base-db" => "base-database"
  | t => t

/-- The exhaustive provider-name switches; the fixed provider list makes the
default unreachable, mirrored as the JavaScript `undefined` interpolation. -/
def getProviderDisplayName : String → String
  | "azure" => "Microsoft Azure"
  | "aws" => "Amazon Web Services"
  | "gcp" => "Google Cloud Platform"
  | _ => "undefined"

def getMulticloudBrandName : String → String
  | "azure" => "Oracle Database@Azure"
  | "aws" => "Oracle Database@AWS"
  | "gcp" => "Oracle Database@Google Cloud"
  | _ => "undefined"

/-- `compareMulticloudVsOCI(params)`.  `multicloudAll` is the full multicloud
pricing array (`getMulticloudPricing` filters it by database type) and
`ociDatabasePricing` the bundled database catalog. -/
def compareMulticloudVsOCI (multicloudAll : List MCPricing)
    (ociDatabasePricing : List DatabaseItem) (databaseType : String)
    (computeUnits storageGB : ℚ) : MCCompareResult :=
  let hoursPerMonth : ℚ := 730
  let multicloudPricing := multicloudAll.filter (fun p => p.databaseType == databaseType)
  let ociDbType := ociDbTypeFor databaseType
  let ociPricing := ociDatabasePricing.find? (fun p =>
    p.databaseType == some ociDbType || p.type == ociDbType)
  let referenceMulticloudPricing := multicloudPricing.find? (fun p => p.available)
  let prices : ℚ × ℚ :=
    match referenceMulticloudPricing with
    | some ref =>
        (jsOrChain [ref.licenseIncludedPrice, ref.ecpuPrice, ref.ocpuPrice,
            ociPricing.bind (fun p => p.ecpuPrice),
            ociPricing.map (fun p => p.pricePerUnit)] (1/10),
         jsOrChain [ref.storagePrice, ociPricing.bind (fun p => p.storagePrice)] (51/2000))
    | none =>
        match ociPricing with
        | some oci =>
            (jsOrChain [oci.ecpuPrice, some oci.pricePerUnit] (1/10),
             jsOrChain [oci.storagePrice] (51/2000))
        | none => (0, 0)
  let ociComputePrice := prices.1
  let ociStoragePrice := prices.2
  let ociCost := computeUnits * ociComputePrice * hoursPerMonth + storageGB * ociStoragePrice
  let ociRow : ComparisonRow :=
    { provider := "OCI", brand := "Oracle Cloud Infrastructure", available := true,
      pricingModel := "direct", computePrice := ociComputePrice,
      storagePrice := ociStoragePrice, monthlyEstimate := round2 ociCost,
      vsOCI := "baseline", billingNote := "Direct billing from Oracle",
      marketplaceUrl := none }
  let providerRows := (["azure", "aws", "gcp"].map (fun provider =>
      match multicloudPricing.find? (fun p => p.provider == provider) with
      | some pricing =>
          let computePrice :=
            jsOrChain [pricing.licenseIncludedPrice, pricing.ecpuPrice, pricing.ocpuPrice] 0
          let storagePrice := jsOr pricing.storagePrice 0
          let monthlyEstimate :=
            if pricing.available then
              computeUnits * computePrice * hoursPerMonth + storageGB * storagePrice
            else 0
          let vsOCI :=
            if pricing.available ∧ ociCost > 0 then
              if monthlyEstimate = ociCost then "same price (price parity)"
              else if monthlyEstimate > ociCost then
                "+$" ++ toString (round2 (monthlyEstimate - ociCost)) ++ "/mo"
              else "-$" ++ toString (round2 (ociCost - monthlyEstimate)) ++ "/mo"
            else "N/A"
          [ { provider := getProviderDisplayName provider,
              brand := getMulticloudBrandName provider,
              available := pricing.available, pricingModel := pricing.pricingModel,
              computePrice := if pricing.available then computePrice else 0,
              storagePrice := if pricing.available then storagePrice else 0,
              monthlyEstimate := if pricing.available then round2 monthlyEstimate else 0,
              vsOCI := vsOCI, billingNote := pricing.billingNote,
              marketplaceUrl := pricing.marketplaceUrl : ComparisonRow } ]
      | none => [])).flatten
  { databaseType := databaseType, comparison := ociRow :: providerRows,
    ociMonthly := round2 ociCost }

/-! ## Concrete test fixtures (used by witnesses and counterexamples) -/

/-- A flexible compute shape with an OCPU price of 0.0016 (three significant
decimals after multiplying by 730). -/
def testComputeItem : ComputeItem :=
  ⟨"flexible-vm", "AMD E-series", 0, some "VM.Standard.E9.Flex", 2/1250, 0, none⟩

def testCatalogE9 : OCIPricingData := ⟨[testComputeItem], [], [], [], [], false⟩

def testInputE9 : CostEstimateInput :=
  ⟨some ⟨"VM.Standard.E9.Flex", 1, 0, none⟩, none, none, none, none⟩

/-- The OCPU line item produced for `testCatalogE9` and `testInputE9`. -/
def testOcpuItem : BreakdownItem :=
  ⟨"Compute", "VM.Standard.E9.Flex - OCPUs", 1, "OCPU", 2/1250, 2/1250 * 1 * 730⟩

/-- A data-egress entry at the real 0.0085 USD/GB price, with no
`includedDataGB` override. -/
def testEgressItem : NetworkingItem := ⟨"data-egress", 17/2000, none⟩

def testEgressCatalog : OCIPricingData := ⟨[], [], [], [testEgressItem], [], false⟩

/-- Load-balancer base and bandwidth entries. -/
def testLbItem : NetworkingItem := ⟨"flexible-load-balancer", 1/100, none⟩

def testBwItem : NetworkingItem := ⟨"flexible-load-balancer-bandwidth", 1/500, none⟩

def testLbCatalog : OCIPricingData := ⟨[], [], [], [testLbItem, testBwItem], [], false⟩

/-- An autonomous database entry (license included) and its BYOL variant. -/
def testAtpItem : DatabaseItem :=
  ⟨"autonomous-db-atp", some "autonomous-transaction-processing", "Autonomous Transaction Processing",
    0, true, false, some (336/1000), some (51/2000)⟩

def testAtpByolItem : DatabaseItem :=
  ⟨"autonomous-db-atp-byol", some "autonomous-transaction-processing",
    "Autonomous Transaction Processing BYOL", 0, false, true, some (81/1000), some (51/2000)⟩

/-- An available multicloud price record for Database at Azure. -/
def testAzureMC : MCPricing :=
  ⟨"autonomous-serverless", "azure", true, "marketplace", some (336/1000), none,
    some (51/2000), some (336/1000), some (81/1000), true, true,
    "Billed through Azure Marketplace", none⟩

/-- An unavailable multicloud price record (carries no usable prices). -/
def testAwsMCUnavailable : MCPricing :=
  ⟨"autonomous-serverless", "aws", false, "private-offer", none, none, none, none, none,
    false, false, "Contact Oracle for a private offer", none⟩

/-! ## General lemmas -/

lemma head_data_append {p : String} (s : String) {a : Char}
    (hp : p.data.head? = some a) : (p ++ s).data.head? = some a := by
  rw [String.data_append]
  cases hd : p.data with
  | nil => rw [hd] at hp; exact absurd hp (by simp)
  | cons c l => rw [hd] at hp; simpa using hp

lemma string_ne_of_head {u t : String} {a b : Char}
    (hu : u.data.head? = some a) (ht : t.data.head? = some b) (hab : a ≠ b) : u ≠ t := by
  intro h
  rw [h, ht] at hu
  exact hab (by simpa using hu.symm)

lemma jsStartsWith_append (p s q : String) (h : jsStartsWith p q = true) :
    jsStartsWith (p ++ s) q = true := by
  simp only [jsStartsWith, String.data_append, decide_eq_true_eq] at h ⊢
  exact h.trans ⟨_, rfl⟩

/-! ## Claim theorems -/

/-- **C1.** `PricingCache.set` followed by `get` of the same key at time `now`
returns the stored value when `now ≤ expiresAt` (with `expiresAt = set time +
resolved TTL`), and when `now > expiresAt` it deletes the entry and returns
absent.  Moreover, over any sequence of cache operations starting from an
empty cache, whenever a `get` returns a value, that value was stored by some
`set` in the sequence whose expiration timestamp is not yet past: `get` never
returns a value past its expiration. -/
theorem cache_get_expiry_semantics {α : Type} (c : PricingCache α) (k : String) (v : α)
    (tset now : ℤ) (ttl : Option ℤ) :
    (now ≤ tset + resolveTTL c.defaultTTL ttl →
      cacheGet (cacheSet c k v tset ttl) k now = (some v, cacheSet c k v tset ttl)) ∧
    (tset + resolveTTL c.defaultTTL ttl < now →
      cacheGet (cacheSet c k v tset ttl) k now =
        (none, cacheDelete (cacheSet c k v tset ttl) k)) ∧
    (∀ (c₀ : PricingCache α) (ops : List (CacheOp α)) (w : α),
      c₀.cache = CacheMap.empty →
      (cacheGet (applyOps c₀ ops) k now).1 = some w →
      ∃ t ttl2, CacheOp.set k w t ttl2 ∈ ops ∧
        now ≤ t + resolveTTL c₀.defaultTTL ttl2) := by
  have hself : (cacheSet c k v tset ttl).cache k =
      some { data := v, timestamp := tset,
             expiresAt := tset + resolveTTL c.defaultTTL ttl } := by
    simp [cacheSet]
  refine ⟨?_, ?_, ?_⟩
  · intro h
    unfold cacheGet
    rw [hself]
    show (if now > tset + resolveTTL c.defaultTTL ttl
        then (none, cacheDelete (cacheSet c k v tset ttl) k)
        else (some v, cacheSet c k v tset ttl)) = (some v, cacheSet c k v tset ttl)
    rw [if_neg (by omega)]
  · intro h
    unfold cacheGet
    rw [hself]
    show (if now > tset + resolveTTL c.defaultTTL ttl
        then (none, cacheDelete (cacheSet c k v tset ttl) k)
        else (some v, cacheSet c k v tset ttl)) =
      (none, cacheDelete (cacheSet c k v tset ttl) k)
    rw [if_pos (by omega)]
  · intro c₀ ops w hempty hget
    obtain ⟨e, hmem, hdata, hfresh⟩ := cacheGet_some_fresh _ _ _ _ hget
    have horigin := applyOps_origin c₀.defaultTTL ops c₀ rfl k e hmem
    rcases horigin with h | ⟨t, ttl2, hin, _, hexp⟩
    · rw [hempty] at h; exact absurd h (by simp [CacheMap.empty])
    · exact ⟨t, ttl2, hdata ▸ hin, by omega⟩

/-- Witness for C1 at concrete inputs: a value set at time 0 with the default
60-minute TTL is returned by a `get` at time 1000, and in the one-operation
trace `[set]` a successful `get` at time 500 traces back to that `set` within
its TTL. -/
theorem cache_get_expiry_semantics_witness :
    cacheGet (cacheSet (PricingCache.new ℕ 60) "k" 5 0 none) "k" 1000 =
      (some 5, cacheSet (PricingCache.new ℕ 60) "k" 5 0 none) ∧
    (∃ t ttl2, CacheOp.set "k" (7 : ℕ) t ttl2 ∈ [CacheOp.set "k" (7 : ℕ) 0 none] ∧
      (500 : ℤ) ≤ t + resolveTTL (PricingCache.new ℕ 60).defaultTTL ttl2) := by
  constructor
  · exact (cache_get_expiry_semantics (PricingCache.new ℕ 60) "k" 5 0 1000 none).1
      (by norm_num [resolveTTL, PricingCache.new])
  · exact (cache_get_expiry_semantics (PricingCache.new ℕ 60) "k" (7 : ℕ) 0 500 none).2.2
      (PricingCache.new ℕ 60) [CacheOp.set "k" (7 : ℕ) 0 none] 7 rfl
      (by norm_num [applyOps, applyOp, cacheSet, cacheGet, resolveTTL, PricingCache.new,
        List.foldl])

lemma runGetPricingData_hits (bundle : OCIPricingData) (t0 : ℤ) (loads : ℕ) :
    ∀ (ts : List ℤ), (∀ t ∈ ts, t ≤ t0 + DAY_MS) →
      ∀ (pc : PricingCache CacheVal),
        pc.cache KEY_PRICING_DATA = some ⟨.pricingData bundle, t0, t0 + DAY_MS⟩ →
        runGetPricingData bundle ⟨pc, loads⟩ ts =
          (ts.map (fun _ => bundle), ⟨pc, loads⟩) := by
  intro ts
  induction ts with
  | nil => intro _ pc _; rfl
  | cons t ts ih =>
      intro hts pc hcm
      have hget : cacheGet pc KEY_PRICING_DATA t =
          (some (.pricingData bundle), pc) := by
        unfold cacheGet
        rw [hcm]
        show (if t > t0 + DAY_MS then _ else _) = _
        rw [if_neg (by have := hts t (List.mem_cons_self _ _); omega)]
      have hstep : getPricingData bundle ⟨pc, loads⟩ t = (bundle, ⟨pc, loads⟩) := by
        unfold getPricingData
        rw [hget]
      have hrest := ih (fun u hu => hts u (List.mem_cons_of_mem _ hu)) pc hcm
      show (let r := getPricingData bundle ⟨pc, loads⟩ t;
        let rest := runGetPricingData bundle r.2 ts; (r.1 :: rest.1, rest.2)) = _
      rw [hstep]
      show (bundle :: (runGetPricingData bundle ⟨pc, loads⟩ ts).1,
        (runGetPricingData bundle ⟨pc, loads⟩ ts).2) = _
      rw [hrest]
      simp

/-- **C6.** Starting from an empty cache, a first `getPricingData()` call at
time `t0` reads the bundled file once, and every further call at a time within
the 24-hour TTL window returns the cached catalog without reading again: the
total number of disk loads over the whole sequence is 1 and every call returns
the bundled catalog.  Consequently `searchProducts` (a list operation) applied
with identical filters to the results of any two calls in the window yields
identical results. -/
theorem bundled_catalog_loaded_once (bundle : OCIPricingData) (dflt : ℤ)
    (t0 : ℤ) (ts : List ℤ) (hts : ∀ t ∈ ts, t ≤ t0 + DAY_MS) :
    (runGetPricingData bundle ⟨⟨CacheMap.empty, dflt⟩, 0⟩ (t0 :: ts)).2.loads = 1 ∧
    (∀ d ∈ (runGetPricingData bundle ⟨⟨CacheMap.empty, dflt⟩, 0⟩ (t0 :: ts)).1, d = bundle) ∧
    (∀ d1 ∈ (runGetPricingData bundle ⟨⟨CacheMap.empty, dflt⟩, 0⟩ (t0 :: ts)).1,
      ∀ d2 ∈ (runGetPricingData bundle ⟨⟨CacheMap.empty, dflt⟩, 0⟩ (t0 :: ts)).1,
      ∀ opts, searchProducts d1.products opts = searchProducts d2.products opts) := by
  have hget0 : cacheGet (⟨CacheMap.empty, dflt⟩ : PricingCache CacheVal)
      KEY_PRICING_DATA t0 = (none, ⟨CacheMap.empty, dflt⟩) := rfl
  have hstep0 : getPricingData bundle ⟨⟨CacheMap.empty, dflt⟩, 0⟩ t0 =
      (bundle, ⟨cacheSet ⟨CacheMap.empty, dflt⟩ KEY_PRICING_DATA
        (.pricingData bundle) t0 (some (60 * 24)), 1⟩) := by
    unfold getPricingData
    rw [hget0]
  have hcm : (cacheSet (⟨CacheMap.empty, dflt⟩ : PricingCache CacheVal) KEY_PRICING_DATA
      (.pricingData bundle) t0 (some (60 * 24))).cache KEY_PRICING_DATA =
      some ⟨.pricingData bundle, t0, t0 + DAY_MS⟩ := by
    simp [cacheSet, resolveTTL, DAY_MS]
  have hrest := runGetPricingData_hits bundle t0 1 ts hts _ hcm
  have hrun : runGetPricingData bundle ⟨⟨CacheMap.empty, dflt⟩, 0⟩ (t0 :: ts) =
      (bundle :: ts.map (fun _ => bundle),
        ⟨cacheSet ⟨CacheMap.empty, dflt⟩ KEY_PRICING_DATA
          (.pricingData bundle) t0 (some (60 * 24)), 1⟩) := by
    show (let r := getPricingData bundle ⟨⟨CacheMap.empty, dflt⟩, 0⟩ t0;
      let rest := runGetPricingData bundle r.2 ts; (r.1 :: rest.1, rest.2)) = _
    rw [hstep0]
    show (bundle :: (runGetPricingData bundle _ ts).1,
      (runGetPricingData bundle _ ts).2) = _
    rw [hrest]
  refine ⟨by rw [hrun], ?_, ?_⟩
  · intro d hd
    rw [hrun] at hd
    simp at hd
    rcases hd with h | ⟨_, h⟩ <;> exact h
  · intro d1 h1 d2 h2 opts
    rw [hrun] at h1 h2
    simp at h1 h2
    have e1 : d1 = bundle := by rcases h1 with h | ⟨_, h⟩ <;> exact h
    have e2 : d2 = bundle := by rcases h2 with h | ⟨_, h⟩ <;> exact h
    rw [e1, e2]

/-- Witness for C6: two in-window times after the initial load. -/
theorem bundled_catalog_loaded_once_witness :
    (runGetPricingData
      { compute := [], storage := [], database := [], networking := [],
        products := [], freeTier := false }
      ⟨⟨CacheMap.empty, 3600000⟩, 0⟩ [0, 1000, DAY_MS]).2.loads = 1 := by
  exact (bundled_catalog_loaded_once
    { compute := [], storage := [], database := [], networking := [],
      products := [], freeTier := false } 3600000 0 [1000, DAY_MS]
    (by intro t ht; simp [DAY_MS] at ht ⊢; rcases ht with h | h <;> omega)).1

lemma cacheGet_miss_state {α : Type} (c : PricingCache α) (key : String) (now : ℤ)
    (h : (cacheGet c key now).1 = none) :
    (∀ k, k ≠ key → (cacheGet c key now).2.cache k = c.cache k) ∧
    (cacheGet c key now).2.cache key = none := by
  unfold cacheGet at h ⊢
  cases hc : c.cache key with
  | none => exact ⟨fun k _ => rfl, hc⟩
  | some e =>
      rw [hc] at h
      by_cases hexp : now > e.expiresAt
      · constructor
        · intro k hk
          show (if now > e.expiresAt then (none, cacheDelete c key)
            else (some e.data, c)).2.cache k = c.cache k
          rw [if_pos hexp]
          simp [cacheDelete, hk]
        · show (if now > e.expiresAt then (none, cacheDelete c key)
            else (some e.data, c)).2.cache key = none
          rw [if_pos hexp]
          simp [cacheDelete]
      · exfalso
        revert h
        show ((if now > e.expiresAt then (none, cacheDelete c key)
          else (some e.data, c)).1 = none) → False
        rw [if_neg hexp]
        simp

/-- **C7.** When `fetchRealTimePricing` has no live cached response for the
requested currency and the single fetch fails — a network error or a non-2xx
response — it returns an error whose message describes the failure, consumes
exactly one fetch outcome (no retry), and the resulting cache holds every key
other than the fetched currency key unchanged (in particular the bundled
catalog entry under `oci_pricing_data`) and caches nothing for the failed
fetch. -/
theorem fetch_failure_error_no_retry_cache_preserved
    (c : PricingCache CacheVal) (now : ℤ) (options : RTOptions)
    (rest : List FetchOutcome)
    (hmiss : (cacheGet c ("realtime_" ++ jsOrStr options.currency "USD") now).1 = none) :
    (∀ msg, fetchRealTimePricing c now options (.networkError msg :: rest) =
      (.error ("Failed to fetch real-time pricing: " ++ msg),
        (cacheGet c ("realtime_" ++ jsOrStr options.currency "USD") now).2, rest)) ∧
    (∀ status body,
      fetchRealTimePricing c now options (.response false status body :: rest) =
      (.error ("Failed to fetch real-time pricing: API request failed: " ++ toString status),
        (cacheGet c ("realtime_" ++ jsOrStr options.currency "USD") now).2, rest)) ∧
    (∀ k, k ≠ "realtime_" ++ jsOrStr options.currency "USD" →
      (cacheGet c ("realtime_" ++ jsOrStr options.currency "USD") now).2.cache k =
        c.cache k) ∧
    ((cacheGet c ("realtime_" ++ jsOrStr options.currency "USD") now).2.cache
      ("realtime_" ++ jsOrStr options.currency "USD") = none) ∧
    ((cacheGet c ("realtime_" ++ jsOrStr options.currency "USD") now).2.cache
      KEY_PRICING_DATA = c.cache KEY_PRICING_DATA) := by
  obtain ⟨hoff, hat⟩ := cacheGet_miss_state c _ now hmiss
  have hkey : KEY_PRICING_DATA ≠ "realtime_" ++ jsOrStr options.currency "USD" := by
    refine string_ne_of_head (a := 'o') (b := 'r') rfl ?_ (by decide)
    exact head_data_append _ rfl
  refine ⟨?_, ?_, hoff, hat, hoff _ hkey⟩
  · intro msg
    rcases hp : cacheGet c ("realtime_" ++ jsOrStr options.currency "USD") now with ⟨fst, snd⟩
    rw [hp] at hmiss
    simp only at hmiss
    subst hmiss
    simp only [fetchRealTimePricing]
    rw [hp]
  · intro status body
    rcases hp : cacheGet c ("realtime_" ++ jsOrStr options.currency "USD") now with ⟨fst, snd⟩
    rw [hp] at hmiss
    simp only at hmiss
    subst hmiss
    simp only [fetchRealTimePricing]
    rw [hp]
    rfl

/-- Witness for C7: a failed fetch on an empty cache at concrete inputs. -/
theorem fetch_failure_error_witness :
    fetchRealTimePricing (PricingCache.new CacheVal 60) 0 ⟨none, none, none⟩
      [.networkError "socket hang up"] =
      (.error "Failed to fetch real-time pricing: socket hang up",
        (cacheGet (PricingCache.new CacheVal 60) ("realtime_" ++ jsOrStr none "USD") 0).2,
        []) := by
  exact (fetch_failure_error_no_retry_cache_preserved (PricingCache.new CacheVal 60) 0
    ⟨none, none, none⟩ [] rfl).1 "socket hang up"

lemma round2_zero : round2 0 = 0 := by
  unfold round2 jsRound
  norm_num

lemma computeSection_hours_zero (cp : List ComputeItem) (sh : String) (o m : ℚ) :
    computeSection cp ⟨sh, o, m, some 0⟩ = computeSection cp ⟨sh, o, m, none⟩ := by
  cases h : findShape cp sh <;> simp [computeSection, h, jsOr]

/-- **C10.** An `hoursPerMonth` override equal to 0 is falsy in JavaScript, so
the `||` default kicks in and the configuration is billed at the full 730
hours per month, exactly as if no override had been supplied: the whole result
of `calculateMonthlyCost` (compute section) and of `calculateDatabaseCost` is
identical to the no-override result. -/
theorem hours_zero_override_uses_default (pricing : OCIPricingData) (sh : String)
    (o m : ℚ) (st : Option StorageInput) (di : Option DatabaseInput)
    (ni : Option NetworkingInput) (reg : Option String)
    (dbs : List DatabaseItem) (t : String) (cu sg : ℚ) (lt : Option String) :
    calculateMonthlyCost pricing ⟨some ⟨sh, o, m, some 0⟩, st, di, ni, reg⟩ =
      calculateMonthlyCost pricing ⟨some ⟨sh, o, m, none⟩, st, di, ni, reg⟩ ∧
    calculateDatabaseCost dbs ⟨t, cu, sg, lt, some 0⟩ =
      calculateDatabaseCost dbs ⟨t, cu, sg, lt, none⟩ := by
  constructor
  · simp only [calculateMonthlyCost]
    rw [computeSection_hours_zero]
  · simp [calculateDatabaseCost, jsOr]

lemma computeMissNote_ne_freeTierNote (sh : String) : computeMissNote sh ≠ freeTierNote := by
  refine string_ne_of_head (a := 'W') (b := 'O') ?_ rfl (by decide)
  exact head_data_append _ (head_data_append _ rfl)

/-- **C3.** A calculate call whose only requested resource identifier matches
no catalog entry is a soft not-found: `calculateMonthlyCost` with only an
unknown compute shape returns an empty breakdown, a zero total, and exactly
one note describing the miss (the only other possible note is the static
free-tier hint, which is not a miss note); `calculateDatabaseCost` with an
unknown database type returns exactly the empty-breakdown, zero-total,
single-miss-note record.  Both paths are total functions — no exception. -/
theorem unknown_resource_soft_not_found (pricing : OCIPricingData) (sh : String)
    (o m : ℚ) (hrs : Option ℚ) (reg : Option String)
    (hshape : findShape pricing.compute sh = none)
    (dbs : List DatabaseItem) (params : DbCostParams)
    (hfind : dbCostFind dbs params.type = none)
    (hbyol : dbByolFind dbs params.type = none) :
    ((calculateMonthlyCost pricing ⟨some ⟨sh, o, m, hrs⟩, none, none, none, reg⟩).breakdown
        = [] ∧
      (calculateMonthlyCost pricing ⟨some ⟨sh, o, m, hrs⟩, none, none, none, reg⟩).totalMonthly
        = 0 ∧
      (calculateMonthlyCost pricing ⟨some ⟨sh, o, m, hrs⟩, none, none, none, reg⟩).notes.count
        (computeMissNote sh) = 1) ∧
    calculateDatabaseCost dbs params =
      { breakdown := [], totalMonthly := 0, savings := none,
        notes := ["Database type \"" ++ params.type ++ "\" not found"] } := by
  refine ⟨⟨?_, ?_, ?_⟩, ?_⟩
  · simp [calculateMonthlyCost, computeSection, hshape, SectionOut.empty]
  · simp [calculateMonthlyCost, computeSection, hshape, SectionOut.empty, round2_zero]
  · have hne : (freeTierNote == computeMissNote sh) = false := by
      simp [(computeMissNote_ne_freeTierNote sh).symm]
    cases hft : pricing.freeTier <;>
      simp [calculateMonthlyCost, computeSection, hshape, SectionOut.empty, hft,
        List.count_cons, List.count_nil, hne]
  · unfold calculateDatabaseCost
    rw [hfind, hbyol]
    simp

/-- Witness for C3 at concrete inputs: an empty catalog and unknown
identifiers. -/
theorem unknown_resource_soft_not_found_witness :
    ((calculateMonthlyCost
        { compute := [], storage := [], database := [], networking := [],
          products := [], freeTier := true }
        ⟨some ⟨"VM.NoSuch.Shape", 4, 32, none⟩, none, none, none, none⟩).breakdown = [] ∧
      (calculateMonthlyCost
        { compute := [], storage := [], database := [], networking := [],
          products := [], freeTier := true }
        ⟨some ⟨"VM.NoSuch.Shape", 4, 32, none⟩, none, none, none, none⟩).totalMonthly = 0 ∧
      (calculateMonthlyCost
        { compute := [], storage := [], database := [], networking := [],
          products := [], freeTier := true }
        ⟨some ⟨"VM.NoSuch.Shape", 4, 32, none⟩, none, none, none, none⟩).notes.count
        (computeMissNote "VM.NoSuch.Shape") = 1) ∧
    calculateDatabaseCost [] ⟨"nosuch-db", 2, 100, none, none⟩ =
      { breakdown := [], totalMonthly := 0, savings := none,
        notes := ["Database type \"" ++ "nosuch-db" ++ "\" not found"] } := by
  exact unknown_resource_soft_not_found
    { compute := [], storage := [], database := [], networking := [],
      products := [], freeTier := true }
    "VM.NoSuch.Shape" 4 32 none none rfl [] ⟨"nosuch-db", 2, 100, none, none⟩ rfl rfl

lemma computeSection_items_product (cp : List ComputeItem) (ci : ComputeInput) :
    ∀ b ∈ (computeSection cp ci).items,
      b.monthlyTotal = b.unitPrice * b.quantity * jsOr ci.hoursPerMonth HOURS_PER_MONTH := by
  intro b hb
  cases h : findShape cp ci.shape <;> simp [computeSection, h] at hb
  rcases hb with rfl | rfl <;> rfl

lemma storagePiece_items_product (sp : List StorageItem) (gb : Option ℚ)
    (k l : String) : ∀ b ∈ (storagePiece sp gb k l).1,
      b.monthlyTotal = b.unitPrice * b.quantity := by
  intro b hb
  rcases gb with _ | g
  · simp [storagePiece] at hb
  · by_cases hg : g = 0
    · simp [storagePiece, hg] at hb
    · cases hf : sp.find? (fun s => s.type == k) with
      | none => simp [storagePiece, hg, hf] at hb
      | some p =>
          simp [storagePiece, hg, hf] at hb
          subst hb
          rfl

lemma storageSection_items_product (sp : List StorageItem) (si : StorageInput) :
    ∀ b ∈ (storageSection sp si).items, b.monthlyTotal = b.unitPrice * b.quantity := by
  intro b hb
  simp only [storageSection, List.mem_append] at hb
  rcases hb with ((hb | hb) | hb) | hb <;> exact storagePiece_items_product _ _ _ _ b hb

lemma databaseSection_items_product (dp : List DatabaseItem) (di : DatabaseInput) :
    ∀ b ∈ (databaseSection dp di).items,
      b.monthlyTotal = b.unitPrice * b.quantity * HOURS_PER_MONTH ∨
      b.monthlyTotal = b.unitPrice * b.quantity := by
  intro b hb
  unfold databaseSection at hb
  rcases hf : dbFind dp di.type with _ | d <;> rw [hf] at hb <;>
    rcases he : di.ecpus with _ | e <;> rw [he] at hb <;> simp at hb
  by_cases h0 : e = 0
  · simp [h0] at hb
  · simp [h0] at hb
    rcases hb with rfl | hb
    · left; rfl
    · rcases hs : di.storageGB with _ | g <;> rw [hs] at hb
      · simp at hb
      · by_cases hg : g = 0
        · simp [hg] at hb
        · simp [hg] at hb
          subst hb
          right; rfl

lemma lbBlock_items_product (np : List NetworkingItem) (mbps? : Option ℚ) :
    ∀ b ∈ (lbBlock np mbps?).items,
      b.monthlyTotal = b.unitPrice * b.quantity * HOURS_PER_MONTH := by
  intro b hb
  unfold lbBlock at hb
  rcases mbps? with _ | mbps
  · simp [SectionOut.empty] at hb
  · by_cases h0 : mbps = 0
    · simp [h0, SectionOut.empty] at hb
    · simp [h0] at hb
      rcases h1 : np.find? (fun n => n.type == "flexible-load-balancer") with _ | lb <;>
        rw [h1] at hb <;>
        rcases h2 : np.find? (fun n => n.type == "flexible-load-balancer-bandwidth")
          with _ | bw <;> rw [h2] at hb <;> simp [SectionOut.empty] at hb
      rcases hb with rfl | rfl
      · show lb.pricePerUnit * HOURS_PER_MONTH = lb.pricePerUnit * 1 * HOURS_PER_MONTH
        ring
      · rfl

lemma egressBlock_items_product (np : List NetworkingItem) (gb? : Option ℚ) :
    ∀ b ∈ (egressBlock np gb?).items, b.monthlyTotal = b.unitPrice * b.quantity := by
  intro b hb
  unfold egressBlock at hb
  rcases gb? with _ | gb
  · simp [SectionOut.empty] at hb
  · by_cases h0 : gb = 0
    · simp [h0, SectionOut.empty] at hb
    · simp [h0] at hb
      rcases h1 : np.find? (fun n => n.type == "data-egress") with _ | eg <;>
        rw [h1] at hb <;> simp [SectionOut.empty] at hb
      obtain ⟨hpos, rfl⟩ := hb
      rfl

lemma networkingSection_items_product (np : List NetworkingItem) (ni : NetworkingInput) :
    ∀ b ∈ (networkingSection np ni).items,
      b.monthlyTotal = b.unitPrice * b.quantity * HOURS_PER_MONTH ∨
      b.monthlyTotal = b.unitPrice * b.quantity := by
  intro b hb
  simp only [networkingSection, List.mem_append] at hb
  rcases hb with hb | hb
  · exact Or.inl (lbBlock_items_product np _ b hb)
  · exact Or.inr (egressBlock_items_product np _ b hb)

lemma computeSection_cost_eq (cp : List ComputeItem) (ci : ComputeInput) :
    (computeSection cp ci).cost =
      ((computeSection cp ci).items.map (fun b => b.monthlyTotal)).sum := by
  cases h : findShape cp ci.shape <;> simp [computeSection, h]

lemma storagePiece_cost_eq (sp : List StorageItem) (gb : Option ℚ) (k l : String) :
    (storagePiece sp gb k l).2 =
      (((storagePiece sp gb k l).1).map (fun b => b.monthlyTotal)).sum := by
  rcases gb with _ | g
  · simp [storagePiece]
  · by_cases hg : g = 0
    · simp [storagePiece, hg]
    · cases hf : sp.find? (fun s => s.type == k) with
      | none => simp [storagePiece, hg, hf]
      | some p => simp [storagePiece, hg, hf]

lemma storageSection_cost_eq (sp : List StorageItem) (si : StorageInput) :
    (storageSection sp si).cost =
      ((storageSection sp si).items.map (fun b => b.monthlyTotal)).sum := by
  simp only [storageSection, List.map_append, List.sum_append]
  rw [← storagePiece_cost_eq, ← storagePiece_cost_eq, ← storagePiece_cost_eq,
    ← storagePiece_cost_eq]

lemma databaseSection_cost_eq (dp : List DatabaseItem) (di : DatabaseInput) :
    (databaseSection dp di).cost =
      ((databaseSection dp di).items.map (fun b => b.monthlyTotal)).sum := by
  unfold databaseSection
  rcases hf : dbFind dp di.type with _ | d <;>
    rcases he : di.ecpus with _ | e <;> simp
  by_cases h0 : e = 0
  · simp [h0]
  · simp [h0]
    rcases hs : di.storageGB with _ | g
    · simp
    · by_cases hg : g = 0
      · simp [hg]
      · simp [hg]

lemma lbBlock_cost_eq (np : List NetworkingItem) (mbps? : Option ℚ) :
    (lbBlock np mbps?).cost =
      ((lbBlock np mbps?).items.map (fun b => b.monthlyTotal)).sum := by
  unfold lbBlock
  rcases mbps? with _ | mbps
  · simp [SectionOut.empty]
  · by_cases h0 : mbps = 0
    · simp [h0, SectionOut.empty]
    · simp [h0]
      rcases h1 : np.find? (fun n => n.type == "flexible-load-balancer") with _ | lb <;>
        rw [h1] <;>
        rcases h2 : np.find? (fun n => n.type == "flexible-load-balancer-bandwidth")
          with _ | bw <;> rw [h2] <;> simp [SectionOut.empty]

lemma egressBlock_cost_eq (np : List NetworkingItem) (gb? : Option ℚ) :
    (egressBlock np gb?).cost =
      ((egressBlock np gb?).items.map (fun b => b.monthlyTotal)).sum := by
  unfold egressBlock
  rcases gb? with _ | gb
  · simp [SectionOut.empty]
  · by_cases h0 : gb = 0
    · simp [h0, SectionOut.empty]
    · simp [h0]
      rcases h1 : np.find? (fun n => n.type == "data-egress") with _ | eg <;> rw [h1]
      · simp [SectionOut.empty]
      · simp
        split <;> simp

lemma networkingSection_cost_eq (np : List NetworkingItem) (ni : NetworkingInput) :
    (networkingSection np ni).cost =
      ((networkingSection np ni).items.map (fun b => b.monthlyTotal)).sum := by
  simp only [networkingSection, List.map_append, List.sum_append]
  rw [← lbBlock_cost_eq, ← egressBlock_cost_eq]

/-- **C2 (amended).** In every result of `calculateMonthlyCost`, each line
item's `monthlyTotal` is the *unrounded* product of its unit price, its
quantity and the applicable hours factor (the compute hours factor, the fixed
730, or 1 for per-month items) — no 2-decimal rounding happens at the point a
line item is computed — and only the aggregate `totalMonthly` is rounded, as
`round2` of the sum of those unrounded line items.
(The original claim fails: see the counterexample.) -/
theorem line_items_unrounded_total_rounded (pricing : OCIPricingData)
    (input : CostEstimateInput) :
    (calculateMonthlyCost pricing input).totalMonthly =
      round2 (((calculateMonthlyCost pricing input).breakdown.map
        (fun b => b.monthlyTotal)).sum) ∧
    ∀ b ∈ (calculateMonthlyCost pricing input).breakdown,
      b.monthlyTotal = b.unitPrice * b.quantity * hoursFactor input ∨
      b.monthlyTotal = b.unitPrice * b.quantity * HOURS_PER_MONTH ∨
      b.monthlyTotal = b.unitPrice * b.quantity := by
  constructor
  · simp only [calculateMonthlyCost, List.map_append, List.sum_append]
    congr 1
    have hA : ∀ (s : SectionOut),
        s.cost = ((s.items.map (fun b => b.monthlyTotal)).sum) → True := fun _ _ => trivial
    have h1 : (match input.compute with
        | some ci => computeSection pricing.compute ci
        | none => SectionOut.empty).cost =
        ((match input.compute with
          | some ci => computeSection pricing.compute ci
          | none => SectionOut.empty).items.map (fun (b : BreakdownItem) => b.monthlyTotal)).sum := by
      rcases input.compute with _ | ci
      · simp [SectionOut.empty]
      · exact computeSection_cost_eq _ _
    have h2 : (match input.storage with
        | some si => storageSection pricing.storage si
        | none => SectionOut.empty).cost =
        ((match input.storage with
          | some si => storageSection pricing.storage si
          | none => SectionOut.empty).items.map (fun (b : BreakdownItem) => b.monthlyTotal)).sum := by
      rcases input.storage with _ | si
      · simp [SectionOut.empty]
      · exact storageSection_cost_eq _ _
    have h3 : (match input.database with
        | some di => databaseSection pricing.database di
        | none => SectionOut.empty).cost =
        ((match input.database with
          | some di => databaseSection pricing.database di
          | none => SectionOut.empty).items.map (fun (b : BreakdownItem) => b.monthlyTotal)).sum := by
      rcases input.database with _ | di
      · simp [SectionOut.empty]
      · exact databaseSection_cost_eq _ _
    have h4 : (match input.networking with
        | some ni => networkingSection pricing.networking ni
        | none => SectionOut.empty).cost =
        ((match input.networking with
          | some ni => networkingSection pricing.networking ni
          | none => SectionOut.empty).items.map (fun (b : BreakdownItem) => b.monthlyTotal)).sum := by
      rcases input.networking with _ | ni
      · simp [SectionOut.empty]
      · exact networkingSection_cost_eq _ _
    rw [h1, h2, h3, h4]
  · intro b hb
    simp only [calculateMonthlyCost, List.mem_append] at hb
    rcases hb with ((hb | hb) | hb) | hb
    · rcases hc : input.compute with _ | ci <;> rw [hc] at hb
      · simp [SectionOut.empty] at hb
      · left
        rw [computeSection_items_product pricing.compute ci b hb]
        simp [hoursFactor, hc]
    · rcases hs : input.storage with _ | si <;> rw [hs] at hb
      · simp [SectionOut.empty] at hb
      · right; right
        exact storageSection_items_product pricing.storage si b hb
    · rcases hd : input.database with _ | di <;> rw [hd] at hb
      · simp [SectionOut.empty] at hb
      · rcases databaseSection_items_product pricing.database di b hb with h | h
        · right; left; exact h
        · right; right; exact h
    · rcases hn : input.networking with _ | ni <;> rw [hn] at hb
      · simp [SectionOut.empty] at hb
      · rcases networkingSection_items_product pricing.networking ni b hb with h | h
        · right; left; exact h
        · right; right; exact h

/-- Witness for C2 (amended) at a concrete catalog and input: the total is the
rounded sum of the unrounded items, and the OCPU line item is an exact
product. -/
theorem line_items_unrounded_total_rounded_witness :
    ((calculateMonthlyCost testCatalogE9 testInputE9).totalMonthly =
      round2 (((calculateMonthlyCost testCatalogE9 testInputE9).breakdown.map
        (fun b => b.monthlyTotal)).sum)) ∧
    (testOcpuItem.monthlyTotal =
        testOcpuItem.unitPrice * testOcpuItem.quantity * hoursFactor testInputE9 ∨
      testOcpuItem.monthlyTotal =
        testOcpuItem.unitPrice * testOcpuItem.quantity * HOURS_PER_MONTH ∨
      testOcpuItem.monthlyTotal = testOcpuItem.unitPrice * testOcpuItem.quantity) := by
  constructor
  · exact (line_items_unrounded_total_rounded testCatalogE9 testInputE9).1
  · refine (line_items_unrounded_total_rounded testCatalogE9 testInputE9).2 testOcpuItem ?_
    simp [calculateMonthlyCost, computeSection, findShape, SectionOut.empty, jsOr,
      jsTemplate, HOURS_PER_MONTH, testCatalogE9, testInputE9, testComputeItem, testOcpuItem]

/-- **C2 (counterexample).** At a catalog whose OCPU price is 0.0016 and an
input of 1 OCPU for the default 730 hours, the OCPU line item’s
`monthlyTotal` is the unrounded 1.168, while the claim requires
`round2(unitPrice × quantity × hours) = 1.17`: the two differ, so line items
are not rounded to 2 decimal places at the point they are computed. -/
theorem line_item_not_rounded_counterexample :
    ((calculateMonthlyCost testCatalogE9 testInputE9).breakdown.map
      (fun b => b.monthlyTotal)) = [146/125, 0] ∧
    round2 ((2/1250 : ℚ) * 1 * 730) = 117/100 ∧ ((146 : ℚ)/125) ≠ 117/100 := by
  refine ⟨?_, ?_, by norm_num⟩
  · simp [calculateMonthlyCost, computeSection, findShape, SectionOut.empty, jsOr,
      testCatalogE9, testInputE9, testComputeItem]
    norm_num [HOURS_PER_MONTH]
  · unfold round2 jsRound
    norm_num [Int.floor_eq_iff]

/-- **C4.** Outbound data transfer subtracts the 10,240 GB monthly free
allowance before pricing (in `calculateMonthlyCost` the allowance comes from
the catalog entry's `includedDataGB`, defaulting to 10,240; the hypothesis
pins it to the fixed 10,240 of the spec; `calculateNetworkingCost` hardcodes
10,240): an input of exactly 10,240 GB contributes $0 of egress cost, and an
input of 10,241 GB is billed for exactly 1 GB at `pricePerGB × 1`
(`calculateNetworkingCost` rounds the line to cents). -/
theorem egress_free_allowance_subtracted (pricing : OCIPricingData) (e : NetworkingItem)
    (hfind : pricing.networking.find? (fun n => n.type == "data-egress") = some e)
    (hinc : e.includedDataGB = none ∨ e.includedDataGB = some 10240) :
    ((calculateMonthlyCost pricing ⟨none, none, none, some ⟨none, some 10240⟩, none⟩).breakdown
        = [] ∧
      (calculateMonthlyCost pricing
        ⟨none, none, none, some ⟨none, some 10240⟩, none⟩).totalMonthly = 0) ∧
    ((calculateMonthlyCost pricing
        ⟨none, none, none, some ⟨none, some 10241⟩, none⟩).breakdown.map
        (fun b => (b.quantity, b.unitPrice, b.monthlyTotal)) =
      [(1, e.pricePerUnit, e.pricePerUnit * 1)] ∧
      (calculateMonthlyCost pricing
        ⟨none, none, none, some ⟨none, some 10241⟩, none⟩).totalMonthly =
        round2 (e.pricePerUnit * 1)) ∧
    ((calculateNetworkingCost pricing.networking
        ⟨none, none, none, some 10240, none, none, none⟩).breakdown.map
        (fun b => (b.quantity, b.unitPrice, b.monthlyTotal)) =
      [(10240, e.pricePerUnit, 0)] ∧
      (calculateNetworkingCost pricing.networking
        ⟨none, none, none, some 10240, none, none, none⟩).totalMonthly = 0) ∧
    ((calculateNetworkingCost pricing.networking
        ⟨none, none, none, some 10241, none, none, none⟩).breakdown.map
        (fun b => (b.quantity, b.unitPrice, b.monthlyTotal)) =
      [(10241, e.pricePerUnit, round2 (e.pricePerUnit * 1))]) := by
  have h24 : jsOr e.includedDataGB 10240 = 10240 := by
    rcases hinc with h | h <;> simp [jsOr, h]
  refine ⟨⟨?_, ?_⟩, ⟨?_, ?_⟩, ⟨?_, ?_⟩, ?_⟩
  · norm_num [calculateMonthlyCost, networkingSection, lbBlock, egressBlock, hfind, h24,
      SectionOut.empty]
  · norm_num [calculateMonthlyCost, networkingSection, lbBlock, egressBlock, hfind, h24,
      SectionOut.empty, round2_zero]
  · norm_num [calculateMonthlyCost, networkingSection, lbBlock, egressBlock, hfind, h24,
      SectionOut.empty]
  · norm_num [calculateMonthlyCost, networkingSection, lbBlock, egressBlock, hfind, h24,
      SectionOut.empty]
  · norm_num [calculateNetworkingCost, hfind, NetSectionOut.empty, round2_zero]
  · norm_num [calculateNetworkingCost, hfind, NetSectionOut.empty, round2_zero]
  · norm_num [calculateNetworkingCost, hfind, NetSectionOut.empty]

/-- Witness for C4 at the concrete test catalog (egress at $0.0085/GB with no
allowance override). -/
theorem egress_free_allowance_subtracted_witness :
    (calculateMonthlyCost testEgressCatalog
      ⟨none, none, none, some ⟨none, some 10240⟩, none⟩).totalMonthly = 0 ∧
    (calculateMonthlyCost testEgressCatalog
      ⟨none, none, none, some ⟨none, some 10241⟩, none⟩).breakdown.map
      (fun b => (b.quantity, b.unitPrice, b.monthlyTotal)) =
      [(1, testEgressItem.pricePerUnit, testEgressItem.pricePerUnit * 1)] := by
  have h := egress_free_allowance_subtracted testEgressCatalog testEgressItem rfl
    (Or.inl rfl)
  exact ⟨h.1.2, h.2.1.1⟩

/-- **C5 (amended).** The 10 Mbps load-balancer bandwidth allowance is *not*
subtracted from the requested bandwidth before pricing.  `calculateMonthlyCost`
bills the full requested Mbps (`bwPrice × mbps × 730`) into the breakdown and
total and only appends the advisory note that the allowance is "not reflected
in estimate".  `calculateNetworkingCost` also bills the full bandwidth in its
line item and `totalMonthly`, and accounts the allowance (the whole bandwidth
cost when ≤ 10 Mbps, else `bwPrice × 10 × 730`) as `freeCredits`, subtracted
only in the separate `netCost` field. -/
theorem lb_bandwidth_full_price_credit_only (pricing : OCIPricingData)
    (lb bw : NetworkingItem) (mbps : ℚ)
    (hlb : pricing.networking.find? (fun n => n.type == "flexible-load-balancer") = some lb)
    (hbw : pricing.networking.find? (fun n => n.type == "flexible-load-balancer-bandwidth")
      = some bw)
    (hpos : 0 < mbps) :
    ((calculateMonthlyCost pricing ⟨none, none, none, some ⟨some mbps, none⟩, none⟩).breakdown.map
        (fun b => (b.quantity, b.unitPrice, b.monthlyTotal)) =
      [(1, lb.pricePerUnit, lb.pricePerUnit * HOURS_PER_MONTH),
        (mbps, bw.pricePerUnit, bw.pricePerUnit * mbps * HOURS_PER_MONTH)]) ∧
    ("First LB and 10 Mbps free for paid accounts (not reflected in estimate)." ∈
      (calculateMonthlyCost pricing ⟨none, none, none, some ⟨some mbps, none⟩, none⟩).notes) ∧
    ((calculateMonthlyCost pricing ⟨none, none, none, some ⟨some mbps, none⟩, none⟩).totalMonthly
      = round2 (lb.pricePerUnit * HOURS_PER_MONTH + bw.pricePerUnit * mbps * HOURS_PER_MONTH)) ∧
    ((calculateNetworkingCost pricing.networking
        ⟨none, some mbps, none, none, none, none, none⟩).breakdown.map
        (fun b => (b.quantity, b.unitPrice, b.monthlyTotal)) =
      [(mbps, bw.pricePerUnit, round2 (bw.pricePerUnit * mbps * 730))]) ∧
    ((calculateNetworkingCost pricing.networking
        ⟨none, some mbps, none, none, none, none, none⟩).totalMonthly =
      round2 (round2 (bw.pricePerUnit * mbps * 730))) ∧
    ((calculateNetworkingCost pricing.networking
        ⟨none, some mbps, none, none, none, none, none⟩).freeCredits =
      round2 (if mbps ≤ 10 then bw.pricePerUnit * mbps * 730
        else bw.pricePerUnit * 10 * 730)) ∧
    ((calculateNetworkingCost pricing.networking
        ⟨none, some mbps, none, none, none, none, none⟩).netCost =
      max 0 (round2 (round2 (bw.pricePerUnit * mbps * 730) -
        (if mbps ≤ 10 then bw.pricePerUnit * mbps * 730
          else bw.pricePerUnit * 10 * 730)))) := by
  have hne : ¬(mbps = 0) := by intro h; rw [h] at hpos; exact absurd hpos (by norm_num)
  refine ⟨?_, ?_, ?_, ?_, ?_, ?_, ?_⟩
  · simp [calculateMonthlyCost, networkingSection, lbBlock, egressBlock, hlb, hbw, hne,
      SectionOut.empty]
  · simp [calculateMonthlyCost, networkingSection, lbBlock, egressBlock, hlb, hbw, hne,
      SectionOut.empty]
  · simp [calculateMonthlyCost, networkingSection, lbBlock, egressBlock, hlb, hbw, hne,
      SectionOut.empty]
  · simp [calculateNetworkingCost, hbw, hpos, NetSectionOut.empty]
  · simp [calculateNetworkingCost, hbw, hpos, NetSectionOut.empty]
  · simp [calculateNetworkingCost, hbw, hpos, NetSectionOut.empty]
  · simp [calculateNetworkingCost, hbw, hpos, NetSectionOut.empty]

/-- Witness for C5 (amended): 20 Mbps on the concrete catalog is billed in
full, and the allowance shows up only as a free credit. -/
theorem lb_bandwidth_full_price_credit_only_witness :
    ((calculateMonthlyCost testLbCatalog
      ⟨none, none, none, some ⟨some 20, none⟩, none⟩).breakdown.map
      (fun b => (b.quantity, b.unitPrice, b.monthlyTotal)) =
      [(1, testLbItem.pricePerUnit, testLbItem.pricePerUnit * HOURS_PER_MONTH),
        (20, testBwItem.pricePerUnit, testBwItem.pricePerUnit * 20 * HOURS_PER_MONTH)]) ∧
    ((calculateNetworkingCost testLbCatalog.networking
      ⟨none, some 20, none, none, none, none, none⟩).freeCredits =
      round2 (if (20 : ℚ) ≤ 10 then testBwItem.pricePerUnit * 20 * 730
        else testBwItem.pricePerUnit * 10 * 730)) := by
  have h := lb_bandwidth_full_price_credit_only testLbCatalog testLbItem testBwItem 20
    rfl rfl (by norm_num)
  exact ⟨h.1, h.2.2.2.2.2.1⟩

/-- **C5 (counterexample).** With a bandwidth price of $0.002/Mbps/hour and a
request of 20 Mbps, `calculateMonthlyCost` bills the bandwidth line at the
full `0.002 × 20 × 730 = 29.2`, not at the remainder above the allowance
`0.002 × (20 − 10) × 730 = 14.6`: no 10 Mbps is subtracted before pricing. -/
theorem lb_bandwidth_not_subtracted_counterexample :
    ((calculateMonthlyCost testLbCatalog
      ⟨none, none, none, some ⟨some 20, none⟩, none⟩).breakdown.map
      (fun b => b.monthlyTotal)) = [73/10, 146/5] ∧
    ((1 : ℚ)/500) * (20 - 10) * 730 = 73/5 ∧ ((146 : ℚ)/5) ≠ 73/5 := by
  refine ⟨?_, by norm_num, by norm_num⟩
  have hsne : ("flexible-load-balancer" == "flexible-load-balancer-bandwidth") = false := by
    decide
  norm_num [calculateMonthlyCost, networkingSection, lbBlock, egressBlock,
    SectionOut.empty, HOURS_PER_MONTH, testLbCatalog, testLbItem, testBwItem,
    List.find?, hsne]

lemma byolNote_startsWith (s1 s2 : String) :
    jsStartsWith ("BYOL option available: Save $" ++ s1 ++ "/month (" ++ s2 ++
      "%) with existing Oracle licenses") "BYOL option available:" = true := by
  apply jsStartsWith_append
  apply jsStartsWith_append
  apply jsStartsWith_append
  apply jsStartsWith_append
  decide

/-- **C8.** `calculateDatabaseCost` never substitutes BYOL pricing silently:
when invoked with `licenseType = byol`, no `savings` object is ever returned,
and when the BYOL variant is the one found, the result carries the note
marking it as BYOL pricing; conversely, for an autonomous type whose BYOL
variant exists in the catalog (matching the savings lookup), a call without
`licenseType = byol` returns a `savings` object together with an advisory
"BYOL option available" note. -/
theorem byol_savings_advisory (databases : List DatabaseItem) (params : DbCostParams)
    (byolDb : DatabaseItem) :
    (params.licenseType = some "byol" →
      (calculateDatabaseCost databases params).savings = none) ∧
    (params.licenseType = some "byol" →
      dbByolFind databases params.type = some byolDb →
      dbByolPriceNote ∈ (calculateDatabaseCost databases params).notes) ∧
    (params.licenseType ≠ some "byol" →
      jsStartsWith params.type "autonomous" = true →
      dbSavingsFind databases params.type = some byolDb →
      (calculateDatabaseCost databases params).savings.isSome = true ∧
      ((calculateDatabaseCost databases params).notes.any
        (fun n => jsStartsWith n "BYOL option available:")) = true) := by
  refine ⟨?_, ?_, ?_⟩
  · intro h
    unfold calculateDatabaseCost
    rcases hB : dbByolFind databases params.type with _ | b <;>
      rcases hD : dbCostFind databases params.type with _ | d <;>
        simp [h, hB, hD]
  · intro h hB
    have hpb : byolDb.byol = true := by
      have hp := List.find?_some hB
      simp at hp
      exact hp.2
    unfold calculateDatabaseCost
    simp [h, hB, hpb]
  · intro hne hst hsv
    have hp := List.find?_some hsv
    simp at hp
    have hmem := List.mem_of_find?_eq_some hsv
    have hds : (dbCostFind databases params.type).isSome = true := by
      unfold dbCostFind
      rw [List.find?_isSome]
      exact ⟨byolDb, hmem, by simp [hp.1]⟩
    obtain ⟨d, hd⟩ := Option.isSome_iff_exists.mp hds
    have hcond : (params.licenseType == some "byol") = false := by
      rw [beq_eq_false_iff_ne]
      exact hne
    constructor
    · simp [calculateDatabaseCost, hcond, hd, hst, hsv]
    · simp [calculateDatabaseCost, hcond, hd, hst, hsv, byolNote_startsWith]

/-- Witness for C8 at a concrete catalog holding both the license-included ATP
entry and its BYOL variant. -/
theorem byol_savings_advisory_witness :
    (calculateDatabaseCost [testAtpItem, testAtpByolItem]
      ⟨"autonomous-transaction-processing", 2, 100, some "byol", none⟩).savings = none ∧
    dbByolPriceNote ∈ (calculateDatabaseCost [testAtpItem, testAtpByolItem]
      ⟨"autonomous-transaction-processing", 2, 100, some "byol", none⟩).notes ∧
    (calculateDatabaseCost [testAtpItem, testAtpByolItem]
      ⟨"autonomous-transaction-processing", 2, 100, some "included", none⟩).savings.isSome
      = true := by
  have h1 := byol_savings_advisory [testAtpItem, testAtpByolItem]
    ⟨"autonomous-transaction-processing", 2, 100, some "byol", none⟩ testAtpByolItem
  have h2 := byol_savings_advisory [testAtpItem, testAtpByolItem]
    ⟨"autonomous-transaction-processing", 2, 100, some "included", none⟩ testAtpByolItem
  refine ⟨h1.1 rfl, h1.2.1 rfl ?_, (h2.2.2 (by decide) (by decide) ?_).1⟩
  · rfl
  · rfl

lemma jsOrChain_falsy (o : Option ℚ) (rest : List (Option ℚ)) (d : ℚ)
    (h : o = none ∨ o = some 0) : jsOrChain (o :: rest) d = jsOrChain rest d := by
  rcases h with h | h <;> simp [jsOrChain, h]

lemma jsOrChain_truthy (x : ℚ) (rest : List (Option ℚ)) (d : ℚ) (hx : x ≠ 0) :
    jsOrChain (some x :: rest) d = x := by
  simp [jsOrChain, hx]

/-- **C9 (amended).** In `compareMulticloudVsOCI` the OCI price-parity
baseline (the comparison table's first row, the OCI row) takes its compute and
storage prices preferentially from the first multicloud price record of the
requested database type that is marked available, falling back to the bundled
OCI-native catalog entry and then to the hardcoded defaults 0.1 / 0.0255 —
but the hardcoded defaults only apply while one of the two records exists:
when there is no available multicloud record and no matching OCI entry at
all, both baseline prices are 0 (see the counterexample). -/
theorem multicloud_parity_price_sources (multicloudAll : List MCPricing)
    (ociDb : List DatabaseItem) (dbt : String) (cu sg : ℚ) :
    (∀ ref p, (multicloudAll.filter (fun x => x.databaseType == dbt)).find?
        (fun x => x.available) = some ref →
      ref.licenseIncludedPrice = some p → p ≠ 0 →
      ((compareMulticloudVsOCI multicloudAll ociDb dbt cu sg).comparison.head?.map
        (fun row => row.computePrice)) = some p) ∧
    (∀ ref q, (multicloudAll.filter (fun x => x.databaseType == dbt)).find?
        (fun x => x.available) = some ref →
      ref.storagePrice = some q → q ≠ 0 →
      ((compareMulticloudVsOCI multicloudAll ociDb dbt cu sg).comparison.head?.map
        (fun row => row.storagePrice)) = some q) ∧
    (∀ ref o q, (multicloudAll.filter (fun x => x.databaseType == dbt)).find?
        (fun x => x.available) = some ref →
      (ref.licenseIncludedPrice = none ∨ ref.licenseIncludedPrice = some 0) →
      (ref.ecpuPrice = none ∨ ref.ecpuPrice = some 0) →
      (ref.ocpuPrice = none ∨ ref.ocpuPrice = some 0) →
      ociDb.find? (fun x => x.databaseType == some (ociDbTypeFor dbt) ||
        x.type == ociDbTypeFor dbt) = some o →
      o.ecpuPrice = some q → q ≠ 0 →
      ((compareMulticloudVsOCI multicloudAll ociDb dbt cu sg).comparison.head?.map
        (fun row => row.computePrice)) = some q) ∧
    (∀ ref, (multicloudAll.filter (fun x => x.databaseType == dbt)).find?
        (fun x => x.available) = some ref →
      (ref.licenseIncludedPrice = none ∨ ref.licenseIncludedPrice = some 0) →
      (ref.ecpuPrice = none ∨ ref.ecpuPrice = some 0) →
      (ref.ocpuPrice = none ∨ ref.ocpuPrice = some 0) →
      ociDb.find? (fun x => x.databaseType == some (ociDbTypeFor dbt) ||
        x.type == ociDbTypeFor dbt) = none →
      ((compareMulticloudVsOCI multicloudAll ociDb dbt cu sg).comparison.head?.map
        (fun row => row.computePrice)) = some (1/10)) ∧
    (∀ ref, (multicloudAll.filter (fun x => x.databaseType == dbt)).find?
        (fun x => x.available) = some ref →
      (ref.storagePrice = none ∨ ref.storagePrice = some 0) →
      ociDb.find? (fun x => x.databaseType == some (ociDbTypeFor dbt) ||
        x.type == ociDbTypeFor dbt) = none →
      ((compareMulticloudVsOCI multicloudAll ociDb dbt cu sg).comparison.head?.map
        (fun row => row.storagePrice)) = some (51/2000)) ∧
    ((multicloudAll.filter (fun x => x.databaseType == dbt)).find?
        (fun x => x.available) = none →
      ∀ o, ociDb.find? (fun x => x.databaseType == some (ociDbTypeFor dbt) ||
        x.type == ociDbTypeFor dbt) = some o →
      ((compareMulticloudVsOCI multicloudAll ociDb dbt cu sg).comparison.head?.map
        (fun row => row.computePrice)) =
          some (jsOrChain [o.ecpuPrice, some o.pricePerUnit] (1/10)) ∧
      ((compareMulticloudVsOCI multicloudAll ociDb dbt cu sg).comparison.head?.map
        (fun row => row.storagePrice)) =
          some (jsOrChain [o.storagePrice] (51/2000))) ∧
    ((multicloudAll.filter (fun x => x.databaseType == dbt)).find?
        (fun x => x.available) = none →
      ociDb.find? (fun x => x.databaseType == some (ociDbTypeFor dbt) ||
        x.type == ociDbTypeFor dbt) = none →
      ((compareMulticloudVsOCI multicloudAll ociDb dbt cu sg).comparison.head?.map
        (fun row => row.computePrice)) = some 0 ∧
      ((compareMulticloudVsOCI multicloudAll ociDb dbt cu sg).comparison.head?.map
        (fun row => row.storagePrice)) = some 0) := by
  refine ⟨?_, ?_, ?_, ?_, ?_, ?_, ?_⟩
  · intro ref p href hli hp
    simp [compareMulticloudVsOCI, href, hli, hp, jsOrChain]
  · intro ref q href hsp hq
    simp [compareMulticloudVsOCI, href, hsp, hq, jsOrChain]
  · intro ref o q href h1 h2 h3 hoci hoq hq
    have e1 : ref.licenseIncludedPrice = none ∨ ref.licenseIncludedPrice = some 0 := h1
    have e2 : ref.ecpuPrice = none ∨ ref.ecpuPrice = some 0 := h2
    have e3 : ref.ocpuPrice = none ∨ ref.ocpuPrice = some 0 := h3
    rcases e1 with e1 | e1 <;> rcases e2 with e2 | e2 <;> rcases e3 with e3 | e3 <;>
      simp [compareMulticloudVsOCI, href, hoci, e1, e2, e3, hoq, hq, jsOrChain]
  · intro ref href h1 h2 h3 hoci
    rcases h1 with e1 | e1 <;> rcases h2 with e2 | e2 <;> rcases h3 with e3 | e3 <;>
      simp [compareMulticloudVsOCI, href, hoci, e1, e2, e3, jsOrChain]
  · intro ref href hsp hoci
    rcases hsp with e1 | e1 <;> simp [compareMulticloudVsOCI, href, hoci, e1, jsOrChain]
  · intro hrefnone o hoci
    simp [compareMulticloudVsOCI, hrefnone, hoci]
  · intro hrefnone hocinone
    simp [compareMulticloudVsOCI, hrefnone, hocinone]

/-- Witness for C9 (amended): the available Azure record's license-included
price wins as the baseline, and with no records at all the baseline is 0. -/
theorem multicloud_parity_price_sources_witness :
    (((compareMulticloudVsOCI [testAzureMC, testAwsMCUnavailable] []
        "autonomous-serverless" 2 100).comparison.head?.map
      (fun row => row.computePrice)) = some (336/1000)) ∧
    (((compareMulticloudVsOCI [] [] "base-db" 1 0).comparison.head?.map
      (fun row => row.computePrice)) = some 0) := by
  constructor
  · exact (multicloud_parity_price_sources [testAzureMC, testAwsMCUnavailable] []
      "autonomous-serverless" 2 100).1 testAzureMC (336/1000) rfl rfl (by norm_num)
  · exact ((multicloud_parity_price_sources [] [] "base-db" 1 0).2.2.2.2.2.2
      rfl rfl).1

/-- **C9 (counterexample).** With no multicloud price record and no matching
bundled OCI entry, the OCI baseline computes with unit prices 0 — not with
the hardcoded defaults 0.1 and 0.0255 the claim requires for the case where
neither source provides a price. -/
theorem multicloud_default_prices_counterexample :
    ((compareMulticloudVsOCI [] [] "base-db" 1 0).comparison.map
      (fun row => (row.provider, row.computePrice, row.storagePrice))) =
      [("OCI", 0, 0)] ∧
    ((0 : ℚ) ≠ 1/10) ∧ ((0 : ℚ) ≠ 51/2000) := by
  refine ⟨?_, by norm_num, by norm_num⟩
  simp [compareMulticloudVsOCI, ociDbTypeFor, jsOrChain, round2_zero,
    getProviderDisplayName, getMulticloudBrandName]

end OciPricing
